/-
Verification of the StarTenderManager persistence gateway and resource router.

This file shallowly embeds the server-side code of the repository
(src/server/storage.ts and src/server/routes.ts, with the table shapes from
the shared schema) into Lean 4.  Tables are lists of rows; serial id columns
are per-table counters carried in the `Storage` state; timestamps and dates
are abstract instants modeled as `Nat` and threaded in as a `now` parameter
wherever the source calls `new Date()` or the database applies `defaultNow()`.
SQL `LIKE` / `ILIKE` is modeled by an executable pattern matcher over
character lists, parameterized by the character comparison (exact for `LIKE`,
case-folded for `ILIKE`), including `%`, `_` and backslash-escape semantics.
JavaScript quirks that the routes rely on (`parseInt` returning NaN,
falsy-guards on `0` and `""`, `x || fallback`) are modeled explicitly.
-/
import Mathlib

/-! ### JavaScript helpers -/

/-- JavaScript `parseInt(s)` (radix 10): skip leading whitespace, optional
sign, then a maximal run of digits; `none` models `NaN`. -/
def jsParseInt (s : String) : Option Int :=
  let chars := s.data.dropWhile (fun c => c == ' ' || c == '\t' || c == '\n' || c == '\r')
  let (neg, rest) :=
    match chars with
    | '-' :: cs => (true, cs)
    | '+' :: cs => (false, cs)
    | cs => (false, cs)
  let digits := rest.takeWhile Char.isDigit
  if digits.isEmpty then none
  else
    let n : Nat := digits.foldl (fun acc c => acc * 10 + (c.toNat - 48)) 0
    some (if neg then -(n : Int) else (n : Int))

/-- JavaScript `x || d` on an optional number (`0`, `null`, `undefined` are
falsy). -/
def jsOrNat (v : Option Nat) (d : Nat) : Nat :=
  match v with
  | some n => if n == 0 then d else n
  | none => d

/-- JavaScript `x || d` on a doubly-optional number field of a partial
payload (absent, `null` and `0` are all falsy). -/
def jsOrNat2 (v : Option (Option Nat)) (d : Nat) : Nat :=
  match v with
  | some (some n) => if n == 0 then d else n
  | _ => d

/-- JavaScript `x || d` on a string (`""` is falsy). -/
def jsOrStr (v : String) (d : String) : String :=
  if v == "" then d else v

/-! ### SQL LIKE / ILIKE pattern matching -/

/-- ASCII lower-casing of a character, as SQL `lower()` applies it during
case-insensitive matching. -/
def sqlLowerChar (c : Char) : Char :=
  if 65 ≤ c.toNat ∧ c.toNat ≤ 90 then Char.ofNat (c.toNat + 32) else c

/-- Case-insensitive character comparison used by `ILIKE`. -/
def charIEq (c d : Char) : Bool := sqlLowerChar c == sqlLowerChar d

/-- Does `f` accept some suffix of the text (the text itself included)?
Gives `%` its match-any-sequence semantics below. -/
def suffixAny (f : List Char → Bool) : List Char → Bool
  | [] => f []
  | d :: t' => f (d :: t') || suffixAny f t'

/-- SQL `LIKE` pattern matching over character lists, parameterized by the
character comparison `beq` (exact equality for `LIKE`, `charIEq` for
`ILIKE`): `%` matches any sequence, `_` any single character, and a
backslash escapes the following pattern character.  A pattern ending in a
lone backslash is an error in the database; it is modeled as no match. -/
def likeMatchBy (beq : Char → Char → Bool) : List Char → List Char → Bool
  | [], t => t.isEmpty
  | p :: ps, t =>
    if p = '\\' then
      match ps, t with
      | pc :: ps', d :: t' => beq pc d && likeMatchBy beq ps' t'
      | _, _ => false
    else if p = '%' then
      suffixAny (fun u => likeMatchBy beq ps u) t
    else if p = '_' then
      match t with
      | [] => false
      | _ :: t' => likeMatchBy beq ps t'
    else
      match t with
      | [] => false
      | d :: t' => beq p d && likeMatchBy beq ps t'

/-- The condition `column LIKE '%' || q || '%'` (case-sensitive, as
`drizzle`'s `like` emits for the Customer and Lead searches). -/
def likeP (q text : String) : Bool :=
  likeMatchBy (fun a b => a == b) ("%" ++ q ++ "%").data text.data

/-- The condition `column ILIKE '%' || q || '%'` (case-insensitive, as the
raw SQL of the Tender search emits). -/
def ilikeP (q text : String) : Bool :=
  likeMatchBy charIEq ("%" ++ q ++ "%").data text.data

/-- `LIKE` on a nullable column: SQL yields NULL (not matched) when the
column is NULL. -/
def likeOptP (q : String) (text : Option String) : Bool :=
  match text with
  | some t => likeP q t
  | none => false

/-- Specification-side predicate: `q` occurs in `text` as a case-sensitive
contiguous substring. -/
def containsCS (text q : String) : Bool :=
  decide (q.data <:+: text.data)

/-- Specification-side predicate: `q` occurs in `text` as a
case-insensitive contiguous substring. -/
def containsCI (text q : String) : Bool :=
  decide (q.data.map sqlLowerChar <:+: text.data.map sqlLowerChar)

/-- `containsCS` on a nullable column. -/
def containsCSOpt (text : Option String) (q : String) : Bool :=
  match text with
  | some t => containsCS t q
  | none => false

/-- A string is free of the SQL LIKE metacharacters `%`, `_` and the escape
character backslash. -/
def likeSafe (s : String) : Prop :=
  ∀ c ∈ s.data, c ≠ '%' ∧ c ≠ '_' ∧ c ≠ '\\'

instance (s : String) : Decidable (likeSafe s) := by
  unfold likeSafe; infer_instance

/-! ### Data model (shared schema tables) -/

/-- Row of the `users` table. -/
structure User where
  id : Nat
  username : String
  password : String
  name : String
  email : Option String
  role : String
  roleId : Option Nat
  department : Option String
  status : Option String
  lastLogin : Option Nat
  createdAt : Nat
  updatedAt : Nat
deriving DecidableEq, Repr

/-- Row of the `roles` table. -/
structure Role where
  id : Nat
  name : String
  description : Option String
  createdAt : Nat
deriving DecidableEq, Repr

/-- Row of the `companies` table. -/
structure Company where
  id : Nat
  name : String
  cin : Option String
  pan : Option String
  gst : Option String
  contactPerson : Option String
  email : Option String
  phone : Option String
  location : Option String
  pincode : Option String
  status : Option String
  createdAt : Nat
deriving DecidableEq, Repr

/-- Row of the `clients` table. -/
structure Client where
  id : Nat
  name : String
  contactPerson : Option String
  email : Option String
  phone : Option String
  address : Option String
deriving DecidableEq, Repr

/-- Row of the `customers` table. -/
structure Customer where
  id : Nat
  name : String
  company : Option String
  email : Option String
  phone : Option String
  address : Option String
  city : Option String
  state : Option String
  postalCode : Option String
  country : Option String
  type : Option String
  source : Option String
  status : Option String
  lastContact : Option Nat
  notes : Option String
  createdAt : Nat
  updatedAt : Nat
deriving DecidableEq, Repr

/-- Row of the `tenders` table.  Dates (`publishDate`, `dueDate`) and
timestamps are abstract instants. -/
structure Tender where
  id : Nat
  referenceNumber : String
  title : String
  clientId : Option Nat
  companyId : Option Nat
  department : Option String
  publishDate : Nat
  dueDate : Nat
  status : String
  estimatedValue : Option String
  description : String
  createdBy : Option Nat
  createdAt : Nat
  updatedAt : Nat
deriving DecidableEq, Repr

/-- Row of the `documents` table. -/
structure Document where
  id : Nat
  tenderId : Nat
  filename : String
  filesize : Nat
  filetype : String
  path : String
  uploadedBy : Option Nat
  uploadedAt : Nat
deriving DecidableEq, Repr

/-- Row of the `activities` table. -/
structure Activity where
  id : Nat
  tenderId : Option Nat
  activityType : String
  description : String
  userId : Nat
  timestamp : Nat
deriving DecidableEq, Repr

/-- Row of the `leads` table. -/
structure Lead where
  id : Nat
  title : String
  companyId : Nat
  contactPerson : String
  source : String
  emdValue : String
  status : String
  assignedTo : Option Nat
  tenderId : Option String
  bidStartDate : Option Nat
  bidEndDate : Option Nat
  notes : Option String
  createdAt : Nat
  updatedAt : Nat
deriving DecidableEq, Repr

/-- A `leads` row left-joined with the referenced company's name, the shape
`getLead`/`getLeads` select. -/
structure LeadRow where
  id : Nat
  title : String
  companyId : Nat
  contactPerson : String
  source : String
  emdValue : String
  status : String
  assignedTo : Option Nat
  tenderId : Option String
  bidStartDate : Option Nat
  bidEndDate : Option Nat
  notes : Option String
  createdAt : Nat
  updatedAt : Nat
  companyName : Option String
deriving DecidableEq, Repr

/-- The relational store: one list of rows per table, in insertion order,
plus the serial-id sequence of each table. -/
structure Storage where
  users : List User
  roles : List Role
  companies : List Company
  clients : List Client
  customers : List Customer
  tenders : List Tender
  documents : List Document
  activities : List Activity
  leads : List Lead
  nextUserId : Nat
  nextRoleId : Nat
  nextCompanyId : Nat
  nextClientId : Nat
  nextCustomerId : Nat
  nextTenderId : Nat
  nextDocumentId : Nat
  nextActivityId : Nat
  nextLeadId : Nat
deriving DecidableEq, Repr

/-! ### Insert payloads (validated request bodies) -/

/-- Body accepted by `insertUserSchema`. -/
structure InsertUser where
  username : String
  password : String
  name : String
  email : Option String := none
  role : String := "user"
  roleId : Option Nat := none
  department : Option String := none
  status : Option String := some "active"
deriving DecidableEq, Repr

/-- Body accepted by `insertRoleSchema`. -/
structure InsertRole where
  name : String
  description : Option String := none
deriving DecidableEq, Repr

/-- Body accepted by `insertCompanySchema`. -/
structure InsertCompany where
  name : String
  cin : Option String := none
  pan : Option String := none
  gst : Option String := none
  contactPerson : Option String := none
  email : Option String := none
  phone : Option String := none
  location : Option String := none
  pincode : Option String := none
  status : Option String := some "active"
deriving DecidableEq, Repr

/-- Body accepted by `insertClientSchema`. -/
structure InsertClient where
  name : String
  contactPerson : Option String := none
  email : Option String := none
  phone : Option String := none
  address : Option String := none
deriving DecidableEq, Repr

/-- Body accepted by `insertCustomerSchema`. -/
structure InsertCustomer where
  name : String
  company : Option String := none
  email : Option String := none
  phone : Option String := none
  address : Option String := none
  city : Option String := none
  state : Option String := none
  postalCode : Option String := none
  country : Option String := none
  type : Option String := none
  source : Option String := none
  status : Option String := some "active"
  lastContact : Option Nat := none
  notes : Option String := none
deriving DecidableEq, Repr

/-- Body accepted by `insertTenderSchema`. -/
structure InsertTender where
  referenceNumber : String
  title : String
  clientId : Option Nat := none
  companyId : Option Nat := none
  department : Option String := none
  publishDate : Nat
  dueDate : Nat
  status : String := "open"
  estimatedValue : Option String := none
  description : String
  createdBy : Option Nat := none
deriving DecidableEq, Repr

/-- Body accepted by `insertDocumentSchema`. -/
structure InsertDocument where
  tenderId : Nat
  filename : String
  filesize : Nat
  filetype : String
  path : String
  uploadedBy : Option Nat := none
deriving DecidableEq, Repr

/-- Body accepted by `insertActivitySchema`. -/
structure InsertActivity where
  tenderId : Option Nat := none
  activityType : String
  description : String
  userId : Nat
deriving DecidableEq, Repr

/-- Body accepted by `insertLeadSchema`. -/
structure InsertLead where
  title : String
  companyId : Nat
  contactPerson : String
  source : String
  emdValue : String := "0"
  status : String := "New"
  tenderId : Option String := none
  bidStartDate : Option Nat := none
  bidEndDate : Option Nat := none
  notes : Option String := none
  assignedTo : Option Nat := none
deriving DecidableEq, Repr

/-! ### Partial update payloads (`Partial<InsertE>`)

A field of value type `T` on a non-nullable column is `Option T`
(absent or set); a field on a nullable column is `Option (Option T)`
(absent, set to NULL, or set to a value). -/

/-- `Partial<InsertUser>` as the PATCH users route forwards it. -/
structure UserPatch where
  username : Option String := none
  password : Option (Option String) := none
  name : Option String := none
  email : Option (Option String) := none
  role : Option String := none
  roleId : Option (Option Nat) := none
  department : Option (Option String) := none
  status : Option (Option String) := none
deriving DecidableEq, Repr

/-- `Partial<InsertRole>`. -/
structure RolePatch where
  name : Option String := none
  description : Option (Option String) := none
deriving DecidableEq, Repr

/-- `Partial<InsertCompany>`. -/
structure CompanyPatch where
  name : Option String := none
  cin : Option (Option String) := none
  pan : Option (Option String) := none
  gst : Option (Option String) := none
  contactPerson : Option (Option String) := none
  email : Option (Option String) := none
  phone : Option (Option String) := none
  location : Option (Option String) := none
  pincode : Option (Option String) := none
  status : Option (Option String) := none
deriving DecidableEq, Repr

/-- `Partial<InsertClient>`. -/
structure ClientPatch where
  name : Option String := none
  contactPerson : Option (Option String) := none
  email : Option (Option String) := none
  phone : Option (Option String) := none
  address : Option (Option String) := none
deriving DecidableEq, Repr

/-- `Partial<InsertCustomer>`. -/
structure CustomerPatch where
  name : Option String := none
  company : Option (Option String) := none
  email : Option (Option String) := none
  phone : Option (Option String) := none
  address : Option (Option String) := none
  city : Option (Option String) := none
  state : Option (Option String) := none
  postalCode : Option (Option String) := none
  country : Option (Option String) := none
  type : Option (Option String) := none
  source : Option (Option String) := none
  status : Option (Option String) := none
  lastContact : Option (Option Nat) := none
  notes : Option (Option String) := none
deriving DecidableEq, Repr

/-- `Partial<InsertTender>`. -/
structure TenderPatch where
  referenceNumber : Option String := none
  title : Option String := none
  clientId : Option (Option Nat) := none
  companyId : Option (Option Nat) := none
  department : Option (Option String) := none
  publishDate : Option Nat := none
  dueDate : Option Nat := none
  status : Option String := none
  estimatedValue : Option (Option String) := none
  description : Option String := none
  createdBy : Option (Option Nat) := none
deriving DecidableEq, Repr

/-- `Partial<InsertLead>`. -/
structure LeadPatch where
  title : Option String := none
  companyId : Option Nat := none
  contactPerson : Option String := none
  source : Option String := none
  emdValue : Option String := none
  status : Option String := none
  tenderId : Option (Option String) := none
  bidStartDate : Option (Option Nat) := none
  bidEndDate : Option (Option Nat) := none
  notes : Option (Option String) := none
  assignedTo : Option (Option Nat) := none
deriving DecidableEq, Repr

/-! ### Row merges for update statements (`.set({...patch})`) -/

/-- `db.update(users).set({...user, updatedAt: new Date()})` applied to one
row.  The password case keeping the old value on an explicit NULL models the
database rejecting NULL on a NOT NULL column; the PATCH route never sends
it (it deletes falsy passwords from the payload first). -/
def applyUserPatch (u : User) (p : UserPatch) (now : Nat) : User :=
  { u with
    username := p.username.getD u.username
    password := match p.password with | some (some pw) => pw | _ => u.password
    name := p.name.getD u.name
    email := p.email.getD u.email
    role := p.role.getD u.role
    roleId := p.roleId.getD u.roleId
    department := p.department.getD u.department
    status := p.status.getD u.status
    updatedAt := now }

/-- `db.update(roles).set(role)` applied to one row (no timestamp column is
touched by `updateRole`). -/
def applyRolePatch (r : Role) (p : RolePatch) : Role :=
  { r with
    name := p.name.getD r.name
    description := p.description.getD r.description }

/-- `db.update(companies).set(company)` applied to one row. -/
def applyCompanyPatch (c : Company) (p : CompanyPatch) : Company :=
  { c with
    name := p.name.getD c.name
    cin := p.cin.getD c.cin
    pan := p.pan.getD c.pan
    gst := p.gst.getD c.gst
    contactPerson := p.contactPerson.getD c.contactPerson
    email := p.email.getD c.email
    phone := p.phone.getD c.phone
    location := p.location.getD c.location
    pincode := p.pincode.getD c.pincode
    status := p.status.getD c.status }

/-- `db.update(clients).set(client)` applied to one row. -/
def applyClientPatch (c : Client) (p : ClientPatch) : Client :=
  { c with
    name := p.name.getD c.name
    contactPerson := p.contactPerson.getD c.contactPerson
    email := p.email.getD c.email
    phone := p.phone.getD c.phone
    address := p.address.getD c.address }

/-- `db.update(customers).set({...customer, updatedAt: new Date()})` applied
to one row. -/
def applyCustomerPatch (c : Customer) (p : CustomerPatch) (now : Nat) : Customer :=
  { c with
    name := p.name.getD c.name
    company := p.company.getD c.company
    email := p.email.getD c.email
    phone := p.phone.getD c.phone
    address := p.address.getD c.address
    city := p.city.getD c.city
    state := p.state.getD c.state
    postalCode := p.postalCode.getD c.postalCode
    country := p.country.getD c.country
    type := p.type.getD c.type
    source := p.source.getD c.source
    status := p.status.getD c.status
    lastContact := p.lastContact.getD c.lastContact
    notes := p.notes.getD c.notes
    updatedAt := now }

/-- `db.update(tenders).set({...tender, updatedAt: new Date()})` applied to
one row. -/
def applyTenderPatch (t : Tender) (p : TenderPatch) (now : Nat) : Tender :=
  { t with
    referenceNumber := p.referenceNumber.getD t.referenceNumber
    title := p.title.getD t.title
    clientId := p.clientId.getD t.clientId
    companyId := p.companyId.getD t.companyId
    department := p.department.getD t.department
    publishDate := p.publishDate.getD t.publishDate
    dueDate := p.dueDate.getD t.dueDate
    status := p.status.getD t.status
    estimatedValue := p.estimatedValue.getD t.estimatedValue
    description := p.description.getD t.description
    createdBy := p.createdBy.getD t.createdBy
    updatedAt := now }

/-- `db.update(leads).set({...lead, updatedAt: new Date()})` applied to one
row. -/
def applyLeadPatch (l : Lead) (p : LeadPatch) (now : Nat) : Lead :=
  { l with
    title := p.title.getD l.title
    companyId := p.companyId.getD l.companyId
    contactPerson := p.contactPerson.getD l.contactPerson
    source := p.source.getD l.source
    emdValue := p.emdValue.getD l.emdValue
    status := p.status.getD l.status
    tenderId := p.tenderId.getD l.tenderId
    bidStartDate := p.bidStartDate.getD l.bidStartDate
    bidEndDate := p.bidEndDate.getD l.bidEndDate
    notes := p.notes.getD l.notes
    assignedTo := p.assignedTo.getD l.assignedTo
    updatedAt := now }

/-- SQL equality between a nullable integer column and an integer parameter
(NULL never compares equal). -/
def optNatEqInt (v : Option Nat) (i : Int) : Bool :=
  match v with
  | some n => (n : Int) == i
  | none => false

/-! ### Persistence gateway (`DatabaseStorage` in src/server/storage.ts) -/

namespace DatabaseStorage

/-- `getUser`: first row with the given id. -/
def getUser (s : Storage) (id : Nat) : Option User :=
  s.users.find? (fun u => u.id == id)

/-- `getUsers`. -/
def getUsers (s : Storage) : List User :=
  s.users

/-- `getUserByUsername`. -/
def getUserByUsername (s : Storage) (username : String) : Option User :=
  s.users.find? (fun u => u.username == username)

/-- `createUser`: insert with generated id and defaulted timestamps. -/
def createUser (s : Storage) (b : InsertUser) (now : Nat) : User × Storage :=
  let newUser : User :=
    { id := s.nextUserId, username := b.username, password := b.password,
      name := b.name, email := b.email, role := b.role, roleId := b.roleId,
      department := b.department, status := b.status, lastLogin := none,
      createdAt := now, updatedAt := now }
  (newUser, { s with users := s.users ++ [newUser], nextUserId := s.nextUserId + 1 })

/-- `updateUser`: merge the partial payload onto every row matching the id,
refresh `updatedAt`, and return the first updated row (`undefined` when no
row matched). -/
def updateUser (s : Storage) (i : Int) (p : UserPatch) (now : Nat) :
    Option User × Storage :=
  match s.users.find? (fun u => (u.id : Int) == i) with
  | none => (none, s)
  | some u =>
    let updated := s.users.map
      (fun v => if (v.id : Int) == i then applyUserPatch v p now else v)
    (some (applyUserPatch u p now), { s with users := updated })

/-- `deleteUser`: delete matching rows; always reports `true`. -/
def deleteUser (s : Storage) (i : Int) : Bool × Storage :=
  (true, { s with users := s.users.filter (fun u => !((u.id : Int) == i)) })

/-- `getRole`. -/
def getRole (s : Storage) (id : Nat) : Option Role :=
  s.roles.find? (fun r => r.id == id)

/-- `createRole`. -/
def createRole (s : Storage) (b : InsertRole) (now : Nat) : Role × Storage :=
  let newRole : Role :=
    { id := s.nextRoleId, name := b.name, description := b.description, createdAt := now }
  (newRole, { s with roles := s.roles ++ [newRole], nextRoleId := s.nextRoleId + 1 })

/-- `updateRole`. -/
def updateRole (s : Storage) (i : Int) (p : RolePatch) : Option Role × Storage :=
  match s.roles.find? (fun r => (r.id : Int) == i) with
  | none => (none, s)
  | some r =>
    let updated := s.roles.map
      (fun v => if (v.id : Int) == i then applyRolePatch v p else v)
    (some (applyRolePatch r p), { s with roles := updated })

/-- `deleteRole`: delete matching rows; always reports `true`. -/
def deleteRole (s : Storage) (i : Int) : Bool × Storage :=
  (true, { s with roles := s.roles.filter (fun r => !((r.id : Int) == i)) })

/-- `getUsersCountByRoleId`: count of users whose `roleId` equals the given
id (NULL `roleId` never matches). -/
def getUsersCountByRoleId (s : Storage) (i : Int) : Nat :=
  (s.users.filter (fun u => optNatEqInt u.roleId i)).length

/-- `getCompany`. -/
def getCompany (s : Storage) (id : Nat) : Option Company :=
  s.companies.find? (fun c => c.id == id)

/-- `createCompany`: plain insert — no Activity row is written. -/
def createCompany (s : Storage) (b : InsertCompany) (now : Nat) : Company × Storage :=
  let newCompany : Company :=
    { id := s.nextCompanyId, name := b.name, cin := b.cin, pan := b.pan,
      gst := b.gst, contactPerson := b.contactPerson, email := b.email,
      phone := b.phone, location := b.location, pincode := b.pincode,
      status := b.status, createdAt := now }
  (newCompany,
   { s with companies := s.companies ++ [newCompany], nextCompanyId := s.nextCompanyId + 1 })

/-- `updateCompany`: plain update — no Activity row is written. -/
def updateCompany (s : Storage) (i : Int) (p : CompanyPatch) : Option Company × Storage :=
  match s.companies.find? (fun c => (c.id : Int) == i) with
  | none => (none, s)
  | some c =>
    let updated := s.companies.map
      (fun v => if (v.id : Int) == i then applyCompanyPatch v p else v)
    (some (applyCompanyPatch c p), { s with companies := updated })

/-- `deleteCompany`: delete matching rows; always reports `true`; no
Activity row is written. -/
def deleteCompany (s : Storage) (i : Int) : Bool × Storage :=
  (true, { s with companies := s.companies.filter (fun c => !((c.id : Int) == i)) })

/-- `createActivity`: insert one audit row. -/
def createActivity (s : Storage) (b : InsertActivity) (now : Nat) : Activity × Storage :=
  let newActivity : Activity :=
    { id := s.nextActivityId, tenderId := b.tenderId, activityType := b.activityType,
      description := b.description, userId := b.userId, timestamp := now }
  (newActivity,
   { s with activities := s.activities ++ [newActivity],
            nextActivityId := s.nextActivityId + 1 })

/-- `getCustomer`. -/
def getCustomer (s : Storage) (id : Nat) : Option Customer :=
  s.customers.find? (fun c => c.id == id)

/-- Filter set of `getCustomers`. -/
structure CustomerFilters where
  status : Option String := none
  type : Option String := none
  search : Option String := none
deriving DecidableEq, Repr

/-- The conjunction of conditions `getCustomers` pushes: equality on status
and type, and a case-sensitive `LIKE` search over name, email and company.
A present-but-empty filter string is falsy in JavaScript, so its condition
is skipped. -/
def matchesCustomerFilters (f : CustomerFilters) (c : Customer) : Bool :=
  (match f.status with | some st => st == "" || c.status == some st | none => true) &&
  (match f.type with | some ty => ty == "" || c.type == some ty | none => true) &&
  (match f.search with
   | some q => q == "" || (likeP q c.name || likeOptP q c.email || likeOptP q c.company)
   | none => true)

/-- Descending creation order on customers. -/
def customerNewer (a b : Customer) : Prop := b.createdAt ≤ a.createdAt

instance : DecidableRel customerNewer := fun _ _ => Nat.decLe _ _

/-- `getCustomers`: filtered rows ordered by `createdAt` descending. -/
def getCustomers (s : Storage) (f : CustomerFilters) : List Customer :=
  List.insertionSort customerNewer (s.customers.filter (matchesCustomerFilters f))

/-- `createCustomer`: insert, then log one Activity with the hardcoded
admin user id 1. -/
def createCustomer (s : Storage) (b : InsertCustomer) (now : Nat) : Customer × Storage :=
  let newCustomer : Customer :=
    { id := s.nextCustomerId, name := b.name, company := b.company, email := b.email,
      phone := b.phone, address := b.address, city := b.city, state := b.state,
      postalCode := b.postalCode, country := b.country, type := b.type,
      source := b.source, status := b.status, lastContact := b.lastContact,
      notes := b.notes, createdAt := now, updatedAt := now }
  let s1 := { s with customers := s.customers ++ [newCustomer],
                     nextCustomerId := s.nextCustomerId + 1 }
  let s2 := (createActivity s1
    { tenderId := none, activityType := "create",
      description := "New customer added: " ++ newCustomer.name, userId := 1 } now).2
  (newCustomer, s2)

/-- `updateCustomer`: merge, refresh `updatedAt`, and when a row matched,
log one Activity with user id 1. -/
def updateCustomer (s : Storage) (i : Int) (p : CustomerPatch) (now : Nat) :
    Option Customer × Storage :=
  match s.customers.find? (fun c => (c.id : Int) == i) with
  | none => (none, s)
  | some c =>
    let updatedCustomer := applyCustomerPatch c p now
    let updated := s.customers.map
      (fun v => if (v.id : Int) == i then applyCustomerPatch v p now else v)
    let s1 := { s with customers := updated }
    let s2 := (createActivity s1
      { tenderId := none, activityType := "update",
        description := "Customer updated: " ++ updatedCustomer.name, userId := 1 } now).2
    (some updatedCustomer, s2)

/-- `deleteCustomer`: fetch first, and only when a row exists delete it and
log one Activity with user id 1; reports whether a row was found. -/
def deleteCustomer (s : Storage) (i : Int) (now : Nat) : Bool × Storage :=
  match s.customers.find? (fun c => (c.id : Int) == i) with
  | none => (false, s)
  | some c =>
    let s1 := { s with customers := s.customers.filter (fun v => !((v.id : Int) == i)) }
    let s2 := (createActivity s1
      { tenderId := none, activityType := "delete",
        description := "Customer deleted: " ++ c.name, userId := 1 } now).2
    (true, s2)

/-- `getClient`. -/
def getClient (s : Storage) (id : Nat) : Option Client :=
  s.clients.find? (fun c => c.id == id)

/-- `createClient`. -/
def createClient (s : Storage) (b : InsertClient) : Client × Storage :=
  let newClient : Client :=
    { id := s.nextClientId, name := b.name, contactPerson := b.contactPerson,
      email := b.email, phone := b.phone, address := b.address }
  (newClient,
   { s with clients := s.clients ++ [newClient], nextClientId := s.nextClientId + 1 })

/-- `updateClient`. -/
def updateClient (s : Storage) (i : Int) (p : ClientPatch) : Option Client × Storage :=
  match s.clients.find? (fun c => (c.id : Int) == i) with
  | none => (none, s)
  | some c =>
    let updated := s.clients.map
      (fun v => if (v.id : Int) == i then applyClientPatch v p else v)
    (some (applyClientPatch c p), { s with clients := updated })

/-- `deleteClient`: delete matching rows; always reports `true`. -/
def deleteClient (s : Storage) (i : Int) : Bool × Storage :=
  (true, { s with clients := s.clients.filter (fun c => !((c.id : Int) == i)) })

end DatabaseStorage

namespace DatabaseStorage

/-- `getTender`. -/
def getTender (s : Storage) (id : Nat) : Option Tender :=
  s.tenders.find? (fun t => t.id == id)

/-- `getTenderByReference`. -/
def getTenderByReference (s : Storage) (reference : String) : Option Tender :=
  s.tenders.find? (fun t => t.referenceNumber == reference)

/-- Filter set of `getTenders`. -/
structure TenderFilters where
  status : Option String := none
  clientId : Option Int := none
  startDate : Option Nat := none
  endDate : Option Nat := none
  search : Option String := none
deriving DecidableEq, Repr

/-- The conjunctive predicate `getTenders` composes: status and clientId
equality, inclusive `publishDate` range, and a case-insensitive `ILIKE`
search over title and referenceNumber.  JavaScript falsy guards skip the
status condition for `""`, the clientId condition for `0`, and the search
condition for `""`. -/
def matchesTenderFilters (f : TenderFilters) (t : Tender) : Bool :=
  (match f.status with | some st => st == "" || t.status == st | none => true) &&
  (match f.clientId with
   | some cid => cid == 0 || optNatEqInt t.clientId cid
   | none => true) &&
  (match f.startDate with | some d => decide (d ≤ t.publishDate) | none => true) &&
  (match f.endDate with | some d => decide (t.publishDate ≤ d) | none => true) &&
  (match f.search with
   | some q => q == "" || (ilikeP q t.title || ilikeP q t.referenceNumber)
   | none => true)

/-- Descending creation order on tenders (`orderBy(desc(tenders.createdAt))`). -/
def tenderNewer (a b : Tender) : Prop := b.createdAt ≤ a.createdAt

instance : DecidableRel tenderNewer := fun _ _ => Nat.decLe _ _

instance : IsTotal Tender tenderNewer :=
  ⟨fun a b => Nat.le_total b.createdAt a.createdAt⟩

instance : IsTrans Tender tenderNewer :=
  ⟨fun _ _ _ h1 h2 => Nat.le_trans h2 h1⟩

/-- Result shape of `getTenders`: one page of rows plus the total count of
matching rows. -/
structure TendersResult where
  tenders : List Tender
  total : Nat
deriving DecidableEq, Repr

/-- `getTenders`: count the matching rows, then fetch them ordered by
`createdAt` descending with `LIMIT limit OFFSET (page-1)*limit`.  A negative
OFFSET or LIMIT is a database error (the route turns it into a 500), modeled
as `none`. -/
def getTenders (s : Storage) (f : TenderFilters) (page : Int := 1) (limit : Int := 10) :
    Option TendersResult :=
  let offset := (page - 1) * limit
  let matching := s.tenders.filter (matchesTenderFilters f)
  if offset < 0 || limit < 0 then none
  else
    some { tenders := ((List.insertionSort tenderNewer matching).drop offset.toNat).take limit.toNat
           total := matching.length }

/-- `createTender`: insert, then log one Activity attributed to
`newTender.createdBy || 1`. -/
def createTender (s : Storage) (b : InsertTender) (now : Nat) : Tender × Storage :=
  let newTender : Tender :=
    { id := s.nextTenderId, referenceNumber := b.referenceNumber, title := b.title,
      clientId := b.clientId, companyId := b.companyId, department := b.department,
      publishDate := b.publishDate, dueDate := b.dueDate, status := b.status,
      estimatedValue := b.estimatedValue, description := b.description,
      createdBy := b.createdBy, createdAt := now, updatedAt := now }
  let s1 := { s with tenders := s.tenders ++ [newTender],
                     nextTenderId := s.nextTenderId + 1 }
  let s2 := (createActivity s1
    { tenderId := some newTender.id, activityType := "create",
      description := "New tender added: " ++ newTender.title,
      userId := jsOrNat newTender.createdBy 1 } now).2
  (newTender, s2)

/-- `updateTender`: merge, refresh `updatedAt`, and when a row matched, log
one Activity attributed to the partial payload's `createdBy || 1`. -/
def updateTender (s : Storage) (i : Int) (p : TenderPatch) (now : Nat) :
    Option Tender × Storage :=
  match s.tenders.find? (fun t => (t.id : Int) == i) with
  | none => (none, s)
  | some t =>
    let updatedTender := applyTenderPatch t p now
    let updated := s.tenders.map
      (fun v => if (v.id : Int) == i then applyTenderPatch v p now else v)
    let s1 := { s with tenders := updated }
    let s2 := (createActivity s1
      { tenderId := some updatedTender.id, activityType := "update",
        description := "Tender updated: " ++ updatedTender.title,
        userId := jsOrNat2 p.createdBy 1 } now).2
    (some updatedTender, s2)

/-- `deleteTender`: fetch first; when a row exists, delete its documents,
delete the tender, and log one Activity attributed to the stored row's
`createdBy || 1`; reports whether a row was found. -/
def deleteTender (s : Storage) (i : Int) (now : Nat) : Bool × Storage :=
  match s.tenders.find? (fun t => (t.id : Int) == i) with
  | none => (false, s)
  | some t =>
    let s1 := { s with documents := s.documents.filter (fun d => !((d.tenderId : Int) == i)) }
    let s2 := { s1 with tenders := s1.tenders.filter (fun v => !((v.id : Int) == i)) }
    let s3 := (createActivity s2
      { tenderId := none, activityType := "delete",
        description := "Tender deleted: " ++ t.title ++ " (" ++ t.referenceNumber ++ ")",
        userId := jsOrNat t.createdBy 1 } now).2
    (true, s3)

/-- `getDocumentsByTenderId`. -/
def getDocumentsByTenderId (s : Storage) (tenderId : Nat) : List Document :=
  s.documents.filter (fun d => d.tenderId == tenderId)

/-- `createDocument`. -/
def createDocument (s : Storage) (b : InsertDocument) (now : Nat) : Document × Storage :=
  let newDocument : Document :=
    { id := s.nextDocumentId, tenderId := b.tenderId, filename := b.filename,
      filesize := b.filesize, filetype := b.filetype, path := b.path,
      uploadedBy := b.uploadedBy, uploadedAt := now }
  (newDocument,
   { s with documents := s.documents ++ [newDocument],
            nextDocumentId := s.nextDocumentId + 1 })

/-- `deleteDocument`: delete matching rows; always reports `true`. -/
def deleteDocument (s : Storage) (i : Int) : Bool × Storage :=
  (true, { s with documents := s.documents.filter (fun d => !((d.id : Int) == i)) })

/-- `getLead`: the row left-joined with the referenced company's name. -/
def joinLead (s : Storage) (l : Lead) : LeadRow :=
  { id := l.id, title := l.title, companyId := l.companyId,
    contactPerson := l.contactPerson, source := l.source, emdValue := l.emdValue,
    status := l.status, assignedTo := l.assignedTo, tenderId := l.tenderId,
    bidStartDate := l.bidStartDate, bidEndDate := l.bidEndDate, notes := l.notes,
    createdAt := l.createdAt, updatedAt := l.updatedAt,
    companyName := (s.companies.find? (fun co => co.id == l.companyId)).map (fun co => co.name) }

/-- `getLead`. -/
def getLead (s : Storage) (id : Nat) : Option LeadRow :=
  (s.leads.find? (fun l => l.id == id)).map (joinLead s)

/-- Filter set of `getLeads`. -/
structure LeadFilters where
  status : Option String := none
  source : Option String := none
  search : Option String := none
deriving DecidableEq, Repr

/-- The conjunction of conditions `getLeads` pushes, evaluated on the
left-joined row: equality on status and source, and a case-sensitive `LIKE`
search over the lead title, the joined company name and the contact person.
A present-but-empty filter string is falsy in JavaScript, so its condition
is skipped. -/
def matchesLeadFilters (f : LeadFilters) (r : LeadRow) : Bool :=
  (match f.status with | some st => st == "" || r.status == st | none => true) &&
  (match f.source with | some src => src == "" || r.source == src | none => true) &&
  (match f.search with
   | some q => q == "" || (likeP q r.title || likeOptP q r.companyName || likeP q r.contactPerson)
   | none => true)

/-- Descending creation order on joined lead rows. -/
def leadRowNewer (a b : LeadRow) : Prop := b.createdAt ≤ a.createdAt

instance : DecidableRel leadRowNewer := fun _ _ => Nat.decLe _ _

/-- `getLeads`: joined rows filtered, ordered by `createdAt` descending. -/
def getLeads (s : Storage) (f : LeadFilters) : List LeadRow :=
  List.insertionSort leadRowNewer
    ((s.leads.map (joinLead s)).filter (matchesLeadFilters f))

/-- `createLead`: apply the `|| "0"` / `|| "New"` fallbacks, insert, log one
Activity attributed to `newLead.assignedTo || 1`, and return the joined
row. -/
def createLead (s : Storage) (b : InsertLead) (now : Nat) : Option LeadRow × Storage :=
  let newLead : Lead :=
    { id := s.nextLeadId, title := b.title, companyId := b.companyId,
      contactPerson := b.contactPerson, source := b.source,
      emdValue := jsOrStr b.emdValue "0", status := jsOrStr b.status "New",
      assignedTo := b.assignedTo, tenderId := b.tenderId,
      bidStartDate := b.bidStartDate, bidEndDate := b.bidEndDate, notes := b.notes,
      createdAt := now, updatedAt := now }
  let s1 := { s with leads := s.leads ++ [newLead], nextLeadId := s.nextLeadId + 1 }
  let s2 := (createActivity s1
    { tenderId := none, activityType := "CREATE_LEAD",
      description := "New lead created: " ++ newLead.title,
      userId := jsOrNat newLead.assignedTo 1 } now).2
  (getLead s2 newLead.id, s2)

/-- `updateLead`: merge, refresh `updatedAt`, and when a row matched, log
one Activity attributed to the partial payload's `assignedTo || 1`, and
return the joined row. -/
def updateLead (s : Storage) (i : Int) (p : LeadPatch) (now : Nat) :
    Option LeadRow × Storage :=
  match s.leads.find? (fun l => (l.id : Int) == i) with
  | none => (none, s)
  | some l =>
    let updatedLead := applyLeadPatch l p now
    let updated := s.leads.map
      (fun v => if (v.id : Int) == i then applyLeadPatch v p now else v)
    let s1 := { s with leads := updated }
    let s2 := (createActivity s1
      { tenderId := none, activityType := "UPDATE_LEAD",
        description := "Lead updated: " ++ updatedLead.title,
        userId := jsOrNat2 p.assignedTo 1 } now).2
    (getLead s2 updatedLead.id, s2)

/-- `deleteLead`: fetch first, and only when a row exists delete it and log
one Activity attributed to the stored row's `assignedTo || 1`; reports
whether a row was found. -/
def deleteLead (s : Storage) (i : Int) (now : Nat) : Bool × Storage :=
  match s.leads.find? (fun l => (l.id : Int) == i) with
  | none => (false, s)
  | some l =>
    let s1 := { s with leads := s.leads.filter (fun v => !((v.id : Int) == i)) }
    let s2 := (createActivity s1
      { tenderId := none, activityType := "DELETE_LEAD",
        description := "Lead deleted: " ++ l.title,
        userId := jsOrNat l.assignedTo 1 } now).2
    (true, s2)

end DatabaseStorage

/-! ### Resource router (src/server/routes.ts) -/

/-- A User with the `password` field stripped, the only shape in which the
router serializes a User. -/
structure PublicUser where
  id : Nat
  username : String
  name : String
  email : Option String
  role : String
  roleId : Option Nat
  department : Option String
  status : Option String
  lastLogin : Option Nat
  createdAt : Nat
  updatedAt : Nat
deriving DecidableEq, Repr

/-- `const { password, ...userWithoutPassword } = user`. -/
def User.toPublic (u : User) : PublicUser :=
  { id := u.id, username := u.username, name := u.name, email := u.email,
    role := u.role, roleId := u.roleId, department := u.department,
    status := u.status, lastLogin := u.lastLogin, createdAt := u.createdAt,
    updatedAt := u.updatedAt }

/-- An HTTP response together with the store as the handler leaves it. -/
structure ApiResponse (β : Type) where
  status : Nat
  body : Option β
  state : Storage
deriving DecidableEq, Repr

/-- Error body of the delete routes; only the role-deletion guard populates
`usersCount`. -/
structure ErrBody where
  message : String
  usersCount : Option Nat := none
deriving DecidableEq, Repr

/-- Bodies of the User-returning routes. -/
inductive UserRouteBody where
  | user (u : PublicUser)
  | users (l : List PublicUser)
  | err (message : String)
deriving DecidableEq, Repr

/-- `GET /api/users/current`: mock-authenticated as user id 1; the password
is stripped before serialization. -/
def getCurrentUserRoute (s : Storage) : ApiResponse UserRouteBody :=
  match DatabaseStorage.getUser s 1 with
  | none => ⟨404, some (.err "User not found"), s⟩
  | some u => ⟨200, some (.user u.toPublic), s⟩

/-- `GET /api/users`: passwords are stripped from every row. -/
def getUsersRoute (s : Storage) : ApiResponse UserRouteBody :=
  ⟨200, some (.users ((DatabaseStorage.getUsers s).map User.toPublic)), s⟩

/-- `POST /api/users`: reject duplicate usernames, else insert and return
the created user without its password. -/
def postUsersRoute (s : Storage) (b : InsertUser) (now : Nat) : ApiResponse UserRouteBody :=
  match DatabaseStorage.getUserByUsername s b.username with
  | some _ => ⟨400, some (.err "Username already exists"), s⟩
  | none =>
    let r := DatabaseStorage.createUser s b now
    ⟨201, some (.user r.1.toPublic), r.2⟩

/-- Is this payload password falsy in JavaScript (absent, `null`, or `""`)? -/
def jsFalsyPassword (p : Option (Option String)) : Bool :=
  match p with
  | none => true
  | some none => true
  | some (some pw) => pw == ""

/-- `PATCH /api/users/:id`: parse the id, drop a falsy password from the
payload, update, and return the updated user without its password. -/
def patchUsersRoute (s : Storage) (idStr : String) (b : UserPatch) (now : Nat) :
    ApiResponse UserRouteBody :=
  match jsParseInt idStr with
  | none => ⟨400, some (.err "Invalid user ID"), s⟩
  | some i =>
    let b' := if jsFalsyPassword b.password then { b with password := none } else b
    match DatabaseStorage.updateUser s i b' now with
    | (none, s') => ⟨404, some (.err "User not found"), s'⟩
    | (some u, s') => ⟨200, some (.user u.toPublic), s'⟩

/-- `DELETE /api/users/:id`. -/
def deleteUsersRoute (s : Storage) (idStr : String) : ApiResponse ErrBody :=
  match jsParseInt idStr with
  | none => ⟨400, some { message := "Invalid user ID" }, s⟩
  | some i =>
    let r := DatabaseStorage.deleteUser s i
    if r.1 then ⟨204, none, r.2⟩
    else ⟨404, some { message := "User not found" }, r.2⟩

/-- `DELETE /api/clients/:id`. -/
def deleteClientsRoute (s : Storage) (idStr : String) : ApiResponse ErrBody :=
  match jsParseInt idStr with
  | none => ⟨400, some { message := "Invalid client ID" }, s⟩
  | some i =>
    let r := DatabaseStorage.deleteClient s i
    if r.1 then ⟨204, none, r.2⟩
    else ⟨404, some { message := "Client not found" }, r.2⟩

/-- `DELETE /api/companies/:id`. -/
def deleteCompaniesRoute (s : Storage) (idStr : String) : ApiResponse ErrBody :=
  match jsParseInt idStr with
  | none => ⟨400, some { message := "Invalid company ID" }, s⟩
  | some i =>
    let r := DatabaseStorage.deleteCompany s i
    if r.1 then ⟨204, none, r.2⟩
    else ⟨404, some { message := "Company not found" }, r.2⟩

/-- `DELETE /api/documents/:id`. -/
def deleteDocumentsRoute (s : Storage) (idStr : String) : ApiResponse ErrBody :=
  match jsParseInt idStr with
  | none => ⟨400, some { message := "Invalid document ID" }, s⟩
  | some i =>
    let r := DatabaseStorage.deleteDocument s i
    if r.1 then ⟨204, none, r.2⟩
    else ⟨404, some { message := "Document not found" }, r.2⟩

/-- `DELETE /api/roles/:id`: refuse with 400 and the referencing-user count
while any user still references the role; otherwise delete. -/
def deleteRolesRoute (s : Storage) (idStr : String) : ApiResponse ErrBody :=
  match jsParseInt idStr with
  | none => ⟨400, some { message := "Invalid role ID" }, s⟩
  | some i =>
    let usersCount := DatabaseStorage.getUsersCountByRoleId s i
    if usersCount > 0 then
      ⟨400, some { message := "Cannot delete role that has assigned users",
                   usersCount := some usersCount }, s⟩
    else
      let r := DatabaseStorage.deleteRole s i
      if r.1 then ⟨204, none, r.2⟩
      else ⟨404, some { message := "Role not found" }, r.2⟩

/-- `DELETE /api/customers/:id`. -/
def deleteCustomersRoute (s : Storage) (idStr : String) (now : Nat) : ApiResponse ErrBody :=
  match jsParseInt idStr with
  | none => ⟨400, some { message := "Invalid customer ID" }, s⟩
  | some i =>
    let r := DatabaseStorage.deleteCustomer s i now
    if r.1 then ⟨204, none, r.2⟩
    else ⟨404, some { message := "Customer not found" }, r.2⟩

/-- `DELETE /api/tenders/:id`. -/
def deleteTendersRoute (s : Storage) (idStr : String) (now : Nat) : ApiResponse ErrBody :=
  match jsParseInt idStr with
  | none => ⟨400, some { message := "Invalid tender ID" }, s⟩
  | some i =>
    let r := DatabaseStorage.deleteTender s i now
    if r.1 then ⟨204, none, r.2⟩
    else ⟨404, some { message := "Tender not found" }, r.2⟩

/-- `DELETE /api/leads/:id`. -/
def deleteLeadsRoute (s : Storage) (idStr : String) (now : Nat) : ApiResponse ErrBody :=
  match jsParseInt idStr with
  | none => ⟨400, some { message := "Invalid lead ID" }, s⟩
  | some i =>
    let r := DatabaseStorage.deleteLead s i now
    if r.1 then ⟨204, none, r.2⟩
    else ⟨404, some { message := "Lead not found" }, r.2⟩

/-- Bodies of the Tender routes. -/
inductive TenderRouteBody where
  | tender (t : Tender)
  | page (r : DatabaseStorage.TendersResult)
  | err (message : String)
deriving DecidableEq, Repr

/-- Query string of `GET /api/tenders`.  `startDate`/`endDate` are modeled
as already-parsed instants (`new Date(...)` is outside the model); the rest
are raw strings. -/
structure TendersQuery where
  status : Option String := none
  clientId : Option String := none
  startDate : Option Nat := none
  endDate : Option Nat := none
  search : Option String := none
  page : Option String := none
  limit : Option String := none
deriving DecidableEq, Repr

/-- The filter object `GET /api/tenders` builds: each query parameter is
added only when truthy, and `clientId` only when it parses. -/
def buildTenderFilters (q : TendersQuery) : DatabaseStorage.TenderFilters :=
  { status := match q.status with
      | some st => if st == "" then none else some st
      | none => none
    clientId := match q.clientId with
      | some cs =>
        if cs == "" then none
        else match jsParseInt cs with
          | some n => some n
          | none => none
      | none => none
    startDate := q.startDate
    endDate := q.endDate
    search := match q.search with
      | some e => if e == "" then none else some e
      | none => none }

/-- `GET /api/tenders`: default `page` to `"1"` and `limit` to `"10"` when
absent, parse them, fall back to 1 and 10 on NaN, and run the paginated
listing; a query failure becomes a 500. -/
def getTendersRoute (s : Storage) (q : TendersQuery) : ApiResponse TenderRouteBody :=
  let pageNum := (jsParseInt (q.page.getD "1")).getD 1
  let limitNum := (jsParseInt (q.limit.getD "10")).getD 10
  match DatabaseStorage.getTenders s (buildTenderFilters q) pageNum limitNum with
  | some r => ⟨200, some (.page r), s⟩
  | none => ⟨500, some (.err "Failed to retrieve tenders"), s⟩

/-- `POST /api/tenders`: refuse a referenceNumber already in use with a 400
before inserting anything. -/
def postTendersRoute (s : Storage) (b : InsertTender) (now : Nat) : ApiResponse TenderRouteBody :=
  match DatabaseStorage.getTenderByReference s b.referenceNumber with
  | some _ => ⟨400, some (.err "Reference number is already in use"), s⟩
  | none =>
    let r := DatabaseStorage.createTender s b now
    ⟨201, some (.tender r.1), r.2⟩

/-- `POST /api/activities`: a direct insert path for Activity rows. -/
def postActivitiesRoute (s : Storage) (b : InsertActivity) (now : Nat) : ApiResponse Activity :=
  let r := DatabaseStorage.createActivity s b now
  ⟨201, some r.1, r.2⟩

/-! ### The application's mutation surface -/

/-- Every mutating operation the persistence gateway exposes (each route
that writes data delegates to exactly these). -/
inductive StorageOp where
  | createUser (b : InsertUser) (now : Nat)
  | updateUser (i : Int) (p : UserPatch) (now : Nat)
  | deleteUser (i : Int)
  | createRole (b : InsertRole) (now : Nat)
  | updateRole (i : Int) (p : RolePatch)
  | deleteRole (i : Int)
  | createCompany (b : InsertCompany) (now : Nat)
  | updateCompany (i : Int) (p : CompanyPatch)
  | deleteCompany (i : Int)
  | createClient (b : InsertClient)
  | updateClient (i : Int) (p : ClientPatch)
  | deleteClient (i : Int)
  | createCustomer (b : InsertCustomer) (now : Nat)
  | updateCustomer (i : Int) (p : CustomerPatch) (now : Nat)
  | deleteCustomer (i : Int) (now : Nat)
  | createTender (b : InsertTender) (now : Nat)
  | updateTender (i : Int) (p : TenderPatch) (now : Nat)
  | deleteTender (i : Int) (now : Nat)
  | createDocument (b : InsertDocument) (now : Nat)
  | deleteDocument (i : Int)
  | createActivity (b : InsertActivity) (now : Nat)
  | createLead (b : InsertLead) (now : Nat)
  | updateLead (i : Int) (p : LeadPatch) (now : Nat)
  | deleteLead (i : Int) (now : Nat)

/-- The store state each mutating operation leaves behind. -/
def StorageOp.apply (op : StorageOp) (s : Storage) : Storage :=
  match op with
  | .createUser b now => (DatabaseStorage.createUser s b now).2
  | .updateUser i p now => (DatabaseStorage.updateUser s i p now).2
  | .deleteUser i => (DatabaseStorage.deleteUser s i).2
  | .createRole b now => (DatabaseStorage.createRole s b now).2
  | .updateRole i p => (DatabaseStorage.updateRole s i p).2
  | .deleteRole i => (DatabaseStorage.deleteRole s i).2
  | .createCompany b now => (DatabaseStorage.createCompany s b now).2
  | .updateCompany i p => (DatabaseStorage.updateCompany s i p).2
  | .deleteCompany i => (DatabaseStorage.deleteCompany s i).2
  | .createClient b => (DatabaseStorage.createClient s b).2
  | .updateClient i p => (DatabaseStorage.updateClient s i p).2
  | .deleteClient i => (DatabaseStorage.deleteClient s i).2
  | .createCustomer b now => (DatabaseStorage.createCustomer s b now).2
  | .updateCustomer i p now => (DatabaseStorage.updateCustomer s i p now).2
  | .deleteCustomer i now => (DatabaseStorage.deleteCustomer s i now).2
  | .createTender b now => (DatabaseStorage.createTender s b now).2
  | .updateTender i p now => (DatabaseStorage.updateTender s i p now).2
  | .deleteTender i now => (DatabaseStorage.deleteTender s i now).2
  | .createDocument b now => (DatabaseStorage.createDocument s b now).2
  | .deleteDocument i => (DatabaseStorage.deleteDocument s i).2
  | .createActivity b now => (DatabaseStorage.createActivity s b now).2
  | .createLead b now => (DatabaseStorage.createLead s b now).2
  | .updateLead i p now => (DatabaseStorage.updateLead s i p now).2
  | .deleteLead i now => (DatabaseStorage.deleteLead s i now).2

/-! ### Lemmas about the LIKE matcher -/

/-- Pairwise comparison of two character lists by `beq`. -/
def beqListBy (beq : Char → Char → Bool) : List Char → List Char → Bool
  | [], [] => true
  | a :: as, b :: bs => beq a b && beqListBy beq as bs
  | _, _ => false

theorem beqListBy_eq_iff (w w' : List Char) :
    beqListBy (fun a b => a == b) w w' = true ↔ w = w' := by
  induction w generalizing w' with
  | nil => cases w' <;> simp [beqListBy]
  | cons a as ih =>
    cases w' with
    | nil => simp [beqListBy]
    | cons b bs => simp [beqListBy, ih]

theorem beqListBy_charIEq_iff (w w' : List Char) :
    beqListBy charIEq w w' = true ↔ w.map sqlLowerChar = w'.map sqlLowerChar := by
  induction w generalizing w' with
  | nil => cases w' <;> simp [beqListBy]
  | cons a as ih =>
    cases w' with
    | nil => simp [beqListBy]
    | cons b bs => simp [beqListBy, ih, charIEq]

theorem likeMatchBy_percent_eq (beq : Char → Char → Bool) (p t : List Char) :
    likeMatchBy beq ('%' :: p) t = suffixAny (fun u => likeMatchBy beq p u) t := by
  rw [likeMatchBy.eq_def]
  cases p <;> cases t <;> simp

theorem likeMatchBy_lit_cons (beq : Char → Char → Bool) (c : Char) (ps : List Char)
    (h1 : c ≠ '\\') (h2 : c ≠ '%') (h3 : c ≠ '_') (d : Char) (t' : List Char) :
    likeMatchBy beq (c :: ps) (d :: t') = (beq c d && likeMatchBy beq ps t') := by
  rw [likeMatchBy.eq_def]
  cases ps <;> simp [h1, h2, h3]

theorem likeMatchBy_lit_nil (beq : Char → Char → Bool) (c : Char) (ps : List Char)
    (h1 : c ≠ '\\') (h2 : c ≠ '%') (h3 : c ≠ '_') :
    likeMatchBy beq (c :: ps) [] = false := by
  rw [likeMatchBy.eq_def]
  cases ps <;> simp [h1, h2, h3]

/-- `suffixAny` accepts exactly the texts with an accepted suffix. -/
theorem suffixAny_iff (f : List Char → Bool) (t : List Char) :
    suffixAny f t = true ↔ ∃ u, u <:+ t ∧ f u = true := by
  induction t with
  | nil =>
    simp only [suffixAny]
    constructor
    · intro h; exact ⟨[], List.suffix_rfl, h⟩
    · rintro ⟨u, hu, hm⟩
      rw [List.suffix_nil.mp hu] at hm; exact hm
  | cons d t' ih =>
    simp only [suffixAny, Bool.or_eq_true]
    constructor
    · rintro (h | h)
      · exact ⟨d :: t', List.suffix_rfl, h⟩
      · obtain ⟨u, hu, hm⟩ := ih.mp h
        exact ⟨u, hu.trans (List.suffix_cons d t'), hm⟩
    · rintro ⟨u, hu, hm⟩
      rcases List.suffix_cons_iff.mp hu with rfl | hu'
      · exact Or.inl hm
      · exact Or.inr (ih.mpr ⟨u, hu', hm⟩)

/-- A wildcard-free pattern followed by `%` matches exactly the texts that
start with a `beq`-copy of the literal prefix. -/
theorem likeMatchBy_literal (beq : Char → Char → Bool) (w : List Char)
    (hw : ∀ c ∈ w, c ≠ '%' ∧ c ≠ '_' ∧ c ≠ '\\') (t : List Char) :
    likeMatchBy beq (w ++ ['%']) t = true ↔
      ∃ w' v, t = w' ++ v ∧ beqListBy beq w w' = true := by
  induction w generalizing t with
  | nil =>
    have hall : ∀ u : List Char, likeMatchBy beq ['%'] u = true := by
      intro u
      rw [likeMatchBy_percent_eq]
      induction u with
      | nil => simp [suffixAny, likeMatchBy]
      | cons d u' ihd => simp only [suffixAny, Bool.or_eq_true]; exact Or.inr ihd
    simp only [List.nil_append]
    constructor
    · intro _; exact ⟨[], t, rfl, rfl⟩
    · intro _; exact hall t
  | cons c w' ih =>
    obtain ⟨hc1, hc2, hc3⟩ := hw c (List.mem_cons_self c w')
    have hw' : ∀ x ∈ w', x ≠ '%' ∧ x ≠ '_' ∧ x ≠ '\\' :=
      fun x hx => hw x (List.mem_cons_of_mem c hx)
    cases t with
    | nil =>
      rw [List.cons_append, likeMatchBy_lit_nil beq c _ hc3 hc1 hc2]
      constructor
      · intro h; exact absurd h (by simp)
      · rintro ⟨x, v, hx, hb⟩
        have hxnil : x = [] := by
          cases x with
          | nil => rfl
          | cons e es => simp at hx
        subst hxnil
        simp [beqListBy] at hb
    | cons d t' =>
      rw [List.cons_append, likeMatchBy_lit_cons beq c _ hc3 hc1 hc2,
        Bool.and_eq_true]
      constructor
      · rintro ⟨hbd, hm⟩
        obtain ⟨x, v, hx, hb⟩ := (ih hw' t').mp hm
        refine ⟨d :: x, v, by simp [hx], ?_⟩
        simp only [beqListBy, Bool.and_eq_true]
        exact ⟨hbd, hb⟩
      · rintro ⟨x, v, hx, hb⟩
        cases x with
        | nil => simp [beqListBy] at hb
        | cons e es =>
          simp only [List.cons_append, List.cons.injEq] at hx
          obtain ⟨rfl, ht'⟩ := hx
          simp only [beqListBy, Bool.and_eq_true] at hb
          exact ⟨hb.1, (ih hw' t').mpr ⟨es, v, ht', hb.2⟩⟩

/-- Over a wildcard-free needle, the case-sensitive `LIKE '%q%'` condition
is exactly case-sensitive substring containment. -/
theorem likeP_eq_containsCS (q : String) (hq : likeSafe q) (text : String) :
    likeP q text = containsCS text q := by
  rw [Bool.eq_iff_iff]
  have hpat : ("%" ++ q ++ "%").data = '%' :: (q.data ++ ['%']) := by
    simp [String.data_append]
  unfold likeP containsCS
  rw [hpat, likeMatchBy_percent_eq, suffixAny_iff]
  constructor
  · rintro ⟨u, hu, hm⟩
    obtain ⟨w', v, rfl, hb⟩ := (likeMatchBy_literal _ q.data hq u).mp hm
    rw [beqListBy_eq_iff] at hb
    subst hb
    exact decide_eq_true
      (List.infix_iff_prefix_suffix.mpr ⟨q.data ++ v, List.prefix_append _ _, hu⟩)
  · intro h
    obtain ⟨mid, hpre, hsuf⟩ := List.infix_iff_prefix_suffix.mp (of_decide_eq_true h)
    obtain ⟨v, rfl⟩ := hpre
    exact ⟨q.data ++ v, hsuf,
      (likeMatchBy_literal _ q.data hq _).mpr
        ⟨q.data, v, rfl, (beqListBy_eq_iff _ _).mpr rfl⟩⟩

/-- Over a wildcard-free needle, the case-insensitive `ILIKE '%q%'`
condition is exactly case-insensitive substring containment. -/
theorem ilikeP_eq_containsCI (q : String) (hq : likeSafe q) (text : String) :
    ilikeP q text = containsCI text q := by
  rw [Bool.eq_iff_iff]
  have hpat : ("%" ++ q ++ "%").data = '%' :: (q.data ++ ['%']) := by
    simp [String.data_append]
  unfold ilikeP containsCI
  rw [hpat, likeMatchBy_percent_eq, suffixAny_iff]
  constructor
  · rintro ⟨u, hu, hm⟩
    obtain ⟨w', v, rfl, hb⟩ := (likeMatchBy_literal _ q.data hq u).mp hm
    rw [beqListBy_charIEq_iff] at hb
    obtain ⟨pre, hpre⟩ := hu
    refine decide_eq_true ⟨pre.map sqlLowerChar, v.map sqlLowerChar, ?_⟩
    rw [← hpre]
    simp [hb]
  · intro h
    obtain ⟨a, b, hab⟩ := of_decide_eq_true h
    have hab' : List.map sqlLowerChar text.data =
        a ++ (List.map sqlLowerChar q.data ++ b) := by
      rw [← List.append_assoc]; exact hab.symm
    obtain ⟨ta, trest, hsplit, hma, hmrest⟩ := List.map_eq_append_iff.mp hab'
    obtain ⟨tw, tb, hsplit2, hmw, hmb⟩ := List.map_eq_append_iff.mp hmrest
    refine ⟨tw ++ tb, ⟨ta, by rw [hsplit, hsplit2]⟩, ?_⟩
    exact (likeMatchBy_literal _ q.data hq _).mpr
      ⟨tw, tb, rfl, (beqListBy_charIEq_iff _ _).mpr hmw.symm⟩

/-! ### Helper lemmas and sample data -/

/-- `find?` on two pointwise-related lists, with predicates that agree
across the relation, answers in lockstep. -/
theorem find?_rel_of_forall₂ {α : Type} {R : α → α → Prop} {p q : α → Bool}
    {l1 l2 : List α} (h : List.Forall₂ R l1 l2) (hpq : ∀ a b, R a b → p a = q b) :
    (l1.find? p = none ∧ l2.find? q = none) ∨
    (∃ a b, l1.find? p = some a ∧ l2.find? q = some b ∧ R a b) := by
  induction h with
  | nil => exact Or.inl ⟨rfl, rfl⟩
  | @cons a b l1' l2' hab htl ih =>
    by_cases hpa : p a = true
    · have hqb : q b = true := by rw [← hpq _ _ hab]; exact hpa
      exact Or.inr ⟨a, b, List.find?_cons_of_pos _ hpa, List.find?_cons_of_pos _ hqb, hab⟩
    · have hqb : ¬q b = true := by rw [← hpq _ _ hab]; exact hpa
      rw [List.find?_cons_of_neg _ hpa, List.find?_cons_of_neg _ hqb]
      exact ih

/-- The store with all tables empty and all sequences at 1. -/
def emptyStorage : Storage :=
  { users := [], roles := [], companies := [], clients := [], customers := [],
    tenders := [], documents := [], activities := [], leads := [],
    nextUserId := 1, nextRoleId := 1, nextCompanyId := 1, nextClientId := 1,
    nextCustomerId := 1, nextTenderId := 1, nextDocumentId := 1,
    nextActivityId := 1, nextLeadId := 1 }

/-- A sample customer row. -/
def sampleCustomer : Customer :=
  { id := 1, name := "Acme Corp", company := some "Acme Holdings", email := some "hi@acme.test",
    phone := none, address := none, city := none, state := none, postalCode := none,
    country := none, type := none, source := none, status := some "active",
    lastContact := none, notes := none, createdAt := 1, updatedAt := 1 }

/-- A sample tender row. -/
def sampleTender : Tender :=
  { id := 1, referenceNumber := "T1", title := "Acme Tender", clientId := none,
    companyId := none, department := none, publishDate := 1, dueDate := 9,
    status := "open", estimatedValue := none, description := "roadworks",
    createdBy := some 2, createdAt := 1, updatedAt := 1 }

/-- A sample lead row. -/
def sampleLead : Lead :=
  { id := 1, title := "Acme Lead", companyId := 1, contactPerson := "Jo",
    source := "web", emdValue := "0", status := "New", assignedTo := some 3,
    tenderId := none, bidStartDate := none, bidEndDate := none, notes := none,
    createdAt := 1, updatedAt := 1 }

/-- A sample company row. -/
def sampleCompany : Company :=
  { id := 1, name := "Acme Industries", cin := none, pan := none, gst := none,
    contactPerson := none, email := none, phone := none, location := none,
    pincode := none, status := some "active", createdAt := 1 }

/-- A sample role row. -/
def sampleRole : Role :=
  { id := 1, name := "manager", description := none, createdAt := 1 }

/-- A sample user row, assigned to `sampleRole`. -/
def sampleUser : User :=
  { id := 1, username := "jo", password := "secret", name := "Jo", email := none,
    role := "user", roleId := some 1, department := none, status := some "active",
    lastLogin := none, createdAt := 1, updatedAt := 1 }

/-- A store holding one row of each kind, with sequences advanced past the
existing ids. -/
def sampleStore : Storage :=
  { users := [sampleUser], roles := [sampleRole], companies := [sampleCompany],
    clients := [], customers := [sampleCustomer], tenders := [sampleTender],
    documents := [], activities := [], leads := [sampleLead],
    nextUserId := 2, nextRoleId := 2, nextCompanyId := 2, nextClientId := 1,
    nextCustomerId := 2, nextTenderId := 2, nextDocumentId := 1,
    nextActivityId := 1, nextLeadId := 2 }

/-! ### C8: Activity immutability and write paths -/

/-- C8 counterexample: `POST /api/activities` is a write path of the
Activity component's own — a valid request inserts an Activity row directly,
so Activity rows do not come into existence only as side effects of other
entities' mutations. -/
theorem activities_direct_write_path_cex :
    (postActivitiesRoute emptyStorage
      { activityType := "CREATE_COMPANY", description := "New company added: Acme",
        userId := 1 } 5).status = 201 ∧
    (postActivitiesRoute emptyStorage
      { activityType := "CREATE_COMPANY", description := "New company added: Acme",
        userId := 1 } 5).state.activities.length = emptyStorage.activities.length + 1 := by
  constructor <;> rfl

/-- C8 (amended): Activity rows are never updated or deleted — every
mutating operation of the persistence gateway leaves the existing
`activities` rows untouched as a prefix, only ever appending — but the
Activity component does have a direct write path: `POST /api/activities`
appends exactly the caller's row. -/
theorem activities_append_only :
    (∀ (op : StorageOp) (s : Storage), s.activities <+: (op.apply s).activities) ∧
    (∀ (s : Storage) (b : InsertActivity) (now : Nat),
      (postActivitiesRoute s b now).state.activities =
        s.activities ++ [{ id := s.nextActivityId, tenderId := b.tenderId,
                           activityType := b.activityType, description := b.description,
                           userId := b.userId, timestamp := now }]) := by
  constructor
  · intro op s
    cases op with
    | createUser b now => exact List.prefix_rfl
    | updateUser i p now =>
      simp only [StorageOp.apply, DatabaseStorage.updateUser]
      split
      · exact List.prefix_rfl
      · exact List.prefix_rfl
    | deleteUser i => exact List.prefix_rfl
    | createRole b now => exact List.prefix_rfl
    | updateRole i p =>
      simp only [StorageOp.apply, DatabaseStorage.updateRole]
      split
      · exact List.prefix_rfl
      · exact List.prefix_rfl
    | deleteRole i => exact List.prefix_rfl
    | createCompany b now => exact List.prefix_rfl
    | updateCompany i p =>
      simp only [StorageOp.apply, DatabaseStorage.updateCompany]
      split
      · exact List.prefix_rfl
      · exact List.prefix_rfl
    | deleteCompany i => exact List.prefix_rfl
    | createClient b => exact List.prefix_rfl
    | updateClient i p =>
      simp only [StorageOp.apply, DatabaseStorage.updateClient]
      split
      · exact List.prefix_rfl
      · exact List.prefix_rfl
    | deleteClient i => exact List.prefix_rfl
    | createCustomer b now => exact List.prefix_append _ _
    | updateCustomer i p now =>
      simp only [StorageOp.apply, DatabaseStorage.updateCustomer]
      split
      · exact List.prefix_rfl
      · exact List.prefix_append _ _
    | deleteCustomer i now =>
      simp only [StorageOp.apply, DatabaseStorage.deleteCustomer]
      split
      · exact List.prefix_rfl
      · exact List.prefix_append _ _
    | createTender b now => exact List.prefix_append _ _
    | updateTender i p now =>
      simp only [StorageOp.apply, DatabaseStorage.updateTender]
      split
      · exact List.prefix_rfl
      · exact List.prefix_append _ _
    | deleteTender i now =>
      simp only [StorageOp.apply, DatabaseStorage.deleteTender]
      split
      · exact List.prefix_rfl
      · exact List.prefix_append _ _
    | createDocument b now => exact List.prefix_rfl
    | deleteDocument i => exact List.prefix_rfl
    | createActivity b now => exact List.prefix_append _ _
    | createLead b now => exact List.prefix_append _ _
    | updateLead i p now =>
      simp only [StorageOp.apply, DatabaseStorage.updateLead]
      split
      · exact List.prefix_rfl
      · exact List.prefix_append _ _
    | deleteLead i now =>
      simp only [StorageOp.apply, DatabaseStorage.deleteLead]
      split
      · exact List.prefix_rfl
      · exact List.prefix_append _ _
  · intro s b now
    rfl

/-! ### C1: Activity side effects of entity mutations -/

/-- Exactly one Activity row was appended, attributed to `uid`, with the
identifying `key` appearing inside its description. -/
def appendsOneActivity (before after : Storage) (uid : Nat) (key : String) : Prop :=
  ∃ a : Activity, after.activities = before.activities ++ [a] ∧
    a.userId = uid ∧ key.data <:+: a.description.data

/-- C1 counterexample: a successful Company create inserts no Activity row
at all (and likewise its update and delete paths have no logging), so it is
not the case that every successful create/update/delete of a Company
produces exactly one new Activity row. -/
theorem company_mutations_log_no_activity_cex :
    (DatabaseStorage.createCompany emptyStorage { name := "Acme" } 5).2.companies.length = 1 ∧
    (DatabaseStorage.createCompany emptyStorage { name := "Acme" } 5).2.activities.length = 0 := by
  constructor <;> rfl

/-- C1 (amended): every successful create/update/delete of a Tender,
Customer, or Lead inserts exactly one Activity row whose description
contains the record's identifying field (name for Customer, title for
Tender/Lead); the attributed user id is the record's associated user field
when set and nonzero — `createdBy` for Tender (the stored row's on create
and delete, the payload's on update), `assignedTo` for Lead — and the
fallback id 1 otherwise, while Customer activities always use id 1.
Company creates, updates and deletes insert no Activity row. -/
theorem entity_mutations_activity_logging
    (s : Storage) (now : Nat)
    (bc : InsertCustomer) (bt : InsertTender) (bl : InsertLead) (bco : InsertCompany)
    (ic it il ico : Int)
    (pc : CustomerPatch) (pt : TenderPatch) (pl : LeadPatch) (pco : CompanyPatch)
    (c : Customer) (t : Tender) (l : Lead)
    (hc : s.customers.find? (fun x => (x.id : Int) == ic) = some c)
    (ht : s.tenders.find? (fun x => (x.id : Int) == it) = some t)
    (hl : s.leads.find? (fun x => (x.id : Int) == il) = some l) :
    appendsOneActivity s (DatabaseStorage.createCustomer s bc now).2 1 bc.name ∧
    appendsOneActivity s (DatabaseStorage.updateCustomer s ic pc now).2 1
      (applyCustomerPatch c pc now).name ∧
    appendsOneActivity s (DatabaseStorage.deleteCustomer s ic now).2 1 c.name ∧
    appendsOneActivity s (DatabaseStorage.createTender s bt now).2
      (jsOrNat bt.createdBy 1) bt.title ∧
    appendsOneActivity s (DatabaseStorage.updateTender s it pt now).2
      (jsOrNat2 pt.createdBy 1) (applyTenderPatch t pt now).title ∧
    appendsOneActivity s (DatabaseStorage.deleteTender s it now).2
      (jsOrNat t.createdBy 1) t.title ∧
    appendsOneActivity s (DatabaseStorage.createLead s bl now).2
      (jsOrNat bl.assignedTo 1) bl.title ∧
    appendsOneActivity s (DatabaseStorage.updateLead s il pl now).2
      (jsOrNat2 pl.assignedTo 1) (applyLeadPatch l pl now).title ∧
    appendsOneActivity s (DatabaseStorage.deleteLead s il now).2
      (jsOrNat l.assignedTo 1) l.title ∧
    (DatabaseStorage.createCompany s bco now).2.activities = s.activities ∧
    (DatabaseStorage.updateCompany s ico pco).2.activities = s.activities ∧
    (DatabaseStorage.deleteCompany s ico).2.activities = s.activities := by
  refine ⟨?_, ?_, ?_, ?_, ?_, ?_, ?_, ?_, ?_, ?_, ?_, ?_⟩
  · exact ⟨_, rfl, rfl, ⟨"New customer added: ".data, [], by simp⟩⟩
  · simp only [DatabaseStorage.updateCustomer, hc]
    exact ⟨_, rfl, rfl, ⟨"Customer updated: ".data, [], by simp⟩⟩
  · simp only [DatabaseStorage.deleteCustomer, hc]
    exact ⟨_, rfl, rfl, ⟨"Customer deleted: ".data, [], by simp⟩⟩
  · exact ⟨_, rfl, rfl, ⟨"New tender added: ".data, [], by simp⟩⟩
  · simp only [DatabaseStorage.updateTender, ht]
    exact ⟨_, rfl, rfl, ⟨"Tender updated: ".data, [], by simp⟩⟩
  · simp only [DatabaseStorage.deleteTender, ht]
    refine ⟨_, rfl, rfl, ⟨"Tender deleted: ".data, (" (" ++ t.referenceNumber ++ ")").data, ?_⟩⟩
    simp [String.data_append]
  · exact ⟨_, rfl, rfl, ⟨"New lead created: ".data, [], by simp⟩⟩
  · simp only [DatabaseStorage.updateLead, hl]
    exact ⟨_, rfl, rfl, ⟨"Lead updated: ".data, [], by simp⟩⟩
  · simp only [DatabaseStorage.deleteLead, hl]
    exact ⟨_, rfl, rfl, ⟨"Lead deleted: ".data, [], by simp⟩⟩
  · rfl
  · simp only [DatabaseStorage.updateCompany]
    split
    · rfl
    · rfl
  · rfl

/-- C1 witness: the amended theorem applied to the one-of-each sample
store, with each lookup hypothesis discharged by computation. -/
theorem entity_mutations_activity_logging_witness :
    sampleStore.customers.find? (fun x => (x.id : Int) == 1) = some sampleCustomer ∧
    appendsOneActivity sampleStore (DatabaseStorage.deleteCustomer sampleStore 1 7).2 1
      sampleCustomer.name :=
  ⟨by decide,
   (entity_mutations_activity_logging sampleStore 7
      { name := "Nova" }
      { referenceNumber := "R9", title := "Bridge", publishDate := 2, dueDate := 8,
        description := "d" }
      { title := "L", companyId := 1, contactPerson := "p", source := "web" }
      { name := "Co" }
      1 1 1 1 {} {} {} {} sampleCustomer sampleTender sampleLead
      (by decide) (by decide) (by decide)).2.2.1⟩

/-! ### C2: delete operations and their routes -/

/-- C2 counterexample: `DELETE /api/users/:id` with an id matching no row
responds 204, not 404 — `deleteUser` always reports success. -/
theorem delete_user_absent_responds_204_cex :
    emptyStorage.users = [] ∧
    (deleteUsersRoute emptyStorage "5").status = 204 ∧
    (deleteUsersRoute emptyStorage "5").status ≠ 404 := by
  refine ⟨rfl, by decide, by decide⟩

/-- C2 (amended): only Customer, Tender and Lead deletes report a
found/not-found signal, with their routes answering 404 for an absent id
and 204 after removing an existing row (Tender also cascading to its
documents).  `deleteUser`, `deleteClient`, `deleteCompany`, `deleteRole`
and `deleteDocument` always report `true`, so their routes answer 204 even
when no row matched (for Role, subject to the referencing-users guard,
which answers 400 and leaves the store unchanged). -/
theorem delete_routes_not_found_behavior
    (s : Storage) (idStr : String) (i : Int) (now : Nat)
    (hparse : jsParseInt idStr = some i) :
    ((DatabaseStorage.deleteUser s i).1 = true ∧
      (deleteUsersRoute s idStr).status = 204 ∧
      (deleteUsersRoute s idStr).state.users =
        s.users.filter (fun u => !((u.id : Int) == i))) ∧
    ((DatabaseStorage.deleteClient s i).1 = true ∧
      (deleteClientsRoute s idStr).status = 204 ∧
      (deleteClientsRoute s idStr).state.clients =
        s.clients.filter (fun c => !((c.id : Int) == i))) ∧
    ((DatabaseStorage.deleteCompany s i).1 = true ∧
      (deleteCompaniesRoute s idStr).status = 204 ∧
      (deleteCompaniesRoute s idStr).state.companies =
        s.companies.filter (fun c => !((c.id : Int) == i))) ∧
    ((DatabaseStorage.deleteDocument s i).1 = true ∧
      (deleteDocumentsRoute s idStr).status = 204 ∧
      (deleteDocumentsRoute s idStr).state.documents =
        s.documents.filter (fun d => !((d.id : Int) == i))) ∧
    ((DatabaseStorage.deleteRole s i).1 = true ∧
      (DatabaseStorage.getUsersCountByRoleId s i = 0 →
        (deleteRolesRoute s idStr).status = 204 ∧
        (deleteRolesRoute s idStr).state.roles =
          s.roles.filter (fun r => !((r.id : Int) == i))) ∧
      (0 < DatabaseStorage.getUsersCountByRoleId s i →
        (deleteRolesRoute s idStr).status = 400 ∧
        (deleteRolesRoute s idStr).state = s)) ∧
    ((DatabaseStorage.deleteCustomer s i now).1 =
        s.customers.any (fun c => (c.id : Int) == i) ∧
      (deleteCustomersRoute s idStr now).status =
        (if s.customers.any (fun c => (c.id : Int) == i) then 204 else 404) ∧
      (deleteCustomersRoute s idStr now).state.customers =
        s.customers.filter (fun c => !((c.id : Int) == i)) ∧
      (s.customers.any (fun c => (c.id : Int) == i) = false →
        (deleteCustomersRoute s idStr now).state = s)) ∧
    ((DatabaseStorage.deleteTender s i now).1 =
        s.tenders.any (fun t => (t.id : Int) == i) ∧
      (deleteTendersRoute s idStr now).status =
        (if s.tenders.any (fun t => (t.id : Int) == i) then 204 else 404) ∧
      (deleteTendersRoute s idStr now).state.tenders =
        s.tenders.filter (fun t => !((t.id : Int) == i)) ∧
      (s.tenders.any (fun t => (t.id : Int) == i) = true →
        (deleteTendersRoute s idStr now).state.documents =
          s.documents.filter (fun d => !((d.tenderId : Int) == i))) ∧
      (s.tenders.any (fun t => (t.id : Int) == i) = false →
        (deleteTendersRoute s idStr now).state = s)) ∧
    ((DatabaseStorage.deleteLead s i now).1 =
        s.leads.any (fun l => (l.id : Int) == i) ∧
      (deleteLeadsRoute s idStr now).status =
        (if s.leads.any (fun l => (l.id : Int) == i) then 204 else 404) ∧
      (deleteLeadsRoute s idStr now).state.leads =
        s.leads.filter (fun l => !((l.id : Int) == i)) ∧
      (s.leads.any (fun l => (l.id : Int) == i) = false →
        (deleteLeadsRoute s idStr now).state = s)) := by
  refine ⟨⟨rfl, ?_, ?_⟩, ⟨rfl, ?_, ?_⟩, ⟨rfl, ?_, ?_⟩, ⟨rfl, ?_, ?_⟩,
    ⟨rfl, ?_, ?_⟩, ?_, ?_, ?_⟩
  · simp [deleteUsersRoute, hparse, DatabaseStorage.deleteUser]
  · simp [deleteUsersRoute, hparse, DatabaseStorage.deleteUser]
  · simp [deleteClientsRoute, hparse, DatabaseStorage.deleteClient]
  · simp [deleteClientsRoute, hparse, DatabaseStorage.deleteClient]
  · simp [deleteCompaniesRoute, hparse, DatabaseStorage.deleteCompany]
  · simp [deleteCompaniesRoute, hparse, DatabaseStorage.deleteCompany]
  · simp [deleteDocumentsRoute, hparse, DatabaseStorage.deleteDocument]
  · simp [deleteDocumentsRoute, hparse, DatabaseStorage.deleteDocument]
  · intro hcnt
    constructor
    · simp [deleteRolesRoute, hparse, hcnt, DatabaseStorage.deleteRole]
    · simp [deleteRolesRoute, hparse, hcnt, DatabaseStorage.deleteRole]
  · intro hcnt
    constructor
    · simp [deleteRolesRoute, hparse, hcnt]
    · simp [deleteRolesRoute, hparse, hcnt]
  · -- customers
    cases hfind : s.customers.find? (fun c => (c.id : Int) == i) with
    | none =>
      have hany : s.customers.any (fun c => (c.id : Int) == i) = false :=
        List.any_eq_false.mpr (fun x hx => by
          simpa using List.find?_eq_none.mp hfind x hx)
      have hfilter : s.customers.filter (fun c => !((c.id : Int) == i)) = s.customers :=
        List.filter_eq_self.mpr (fun a ha => by
          simpa using List.find?_eq_none.mp hfind a ha)
      refine ⟨?_, ?_, ?_, ?_⟩
      · simp [DatabaseStorage.deleteCustomer, hfind, hany]
      · simp [deleteCustomersRoute, hparse, DatabaseStorage.deleteCustomer, hfind, hany]
      · simp [deleteCustomersRoute, hparse, DatabaseStorage.deleteCustomer, hfind, hfilter]
      · intro _
        simp [deleteCustomersRoute, hparse, DatabaseStorage.deleteCustomer, DatabaseStorage.createActivity, hfind]
    | some c =>
      have hany : s.customers.any (fun c => (c.id : Int) == i) = true := by
        have := List.find?_isSome.mp (by rw [hfind]; rfl)
        exact List.any_eq_true.mpr this
      refine ⟨?_, ?_, ?_, ?_⟩
      · simp [DatabaseStorage.deleteCustomer, hfind, hany]
      · simp [deleteCustomersRoute, hparse, DatabaseStorage.deleteCustomer, hfind, hany]
      · simp [deleteCustomersRoute, hparse, DatabaseStorage.deleteCustomer, DatabaseStorage.createActivity, hfind]
      · intro habs; rw [hany] at habs; cases habs
  · -- tenders
    cases hfind : s.tenders.find? (fun t => (t.id : Int) == i) with
    | none =>
      have hany : s.tenders.any (fun t => (t.id : Int) == i) = false :=
        List.any_eq_false.mpr (fun x hx => by
          simpa using List.find?_eq_none.mp hfind x hx)
      have hfilter : s.tenders.filter (fun t => !((t.id : Int) == i)) = s.tenders :=
        List.filter_eq_self.mpr (fun a ha => by
          simpa using List.find?_eq_none.mp hfind a ha)
      refine ⟨?_, ?_, ?_, ?_, ?_⟩
      · simp [DatabaseStorage.deleteTender, hfind, hany]
      · simp [deleteTendersRoute, hparse, DatabaseStorage.deleteTender, hfind, hany]
      · simp [deleteTendersRoute, hparse, DatabaseStorage.deleteTender, hfind, hfilter]
      · intro habs; rw [hany] at habs; cases habs
      · intro _
        simp [deleteTendersRoute, hparse, DatabaseStorage.deleteTender, DatabaseStorage.createActivity, hfind]
    | some t =>
      have hany : s.tenders.any (fun t => (t.id : Int) == i) = true := by
        have := List.find?_isSome.mp (by rw [hfind]; rfl)
        exact List.any_eq_true.mpr this
      refine ⟨?_, ?_, ?_, ?_, ?_⟩
      · simp [DatabaseStorage.deleteTender, hfind, hany]
      · simp [deleteTendersRoute, hparse, DatabaseStorage.deleteTender, hfind, hany]
      · simp [deleteTendersRoute, hparse, DatabaseStorage.deleteTender, DatabaseStorage.createActivity, hfind]
      · intro _
        simp [deleteTendersRoute, hparse, DatabaseStorage.deleteTender, DatabaseStorage.createActivity, hfind]
      · intro habs; rw [hany] at habs; cases habs
  · -- leads
    cases hfind : s.leads.find? (fun l => (l.id : Int) == i) with
    | none =>
      have hany : s.leads.any (fun l => (l.id : Int) == i) = false :=
        List.any_eq_false.mpr (fun x hx => by
          simpa using List.find?_eq_none.mp hfind x hx)
      have hfilter : s.leads.filter (fun l => !((l.id : Int) == i)) = s.leads :=
        List.filter_eq_self.mpr (fun a ha => by
          simpa using List.find?_eq_none.mp hfind a ha)
      refine ⟨?_, ?_, ?_, ?_⟩
      · simp [DatabaseStorage.deleteLead, hfind, hany]
      · simp [deleteLeadsRoute, hparse, DatabaseStorage.deleteLead, hfind, hany]
      · simp [deleteLeadsRoute, hparse, DatabaseStorage.deleteLead, hfind, hfilter]
      · intro _
        simp [deleteLeadsRoute, hparse, DatabaseStorage.deleteLead, DatabaseStorage.createActivity, hfind]
    | some l =>
      have hany : s.leads.any (fun l => (l.id : Int) == i) = true := by
        have := List.find?_isSome.mp (by rw [hfind]; rfl)
        exact List.any_eq_true.mpr this
      refine ⟨?_, ?_, ?_, ?_⟩
      · simp [DatabaseStorage.deleteLead, hfind, hany]
      · simp [deleteLeadsRoute, hparse, DatabaseStorage.deleteLead, hfind, hany]
      · simp [deleteLeadsRoute, hparse, DatabaseStorage.deleteLead, DatabaseStorage.createActivity, hfind]
      · intro habs; rw [hany] at habs; cases habs

/-- C2 witness: the amended theorem applied to the sample store at id 1. -/
theorem delete_routes_not_found_behavior_witness :
    jsParseInt "1" = some 1 ∧
    (deleteUsersRoute sampleStore "1").status = 204 :=
  ⟨by decide, (delete_routes_not_found_behavior sampleStore "1" 1 7 (by decide)).1.2.1⟩

/-! ### C5: role deletion guard -/

/-- C5: deleting a role that users still reference answers 400 with the
exact referencing-user count in the body and leaves the store unchanged;
with zero referencing users the role row is removed and the route answers
204. -/
theorem role_deletion_guard (s : Storage) (idStr : String) (i : Int)
    (hparse : jsParseInt idStr = some i) :
    (0 < DatabaseStorage.getUsersCountByRoleId s i →
      (deleteRolesRoute s idStr).status = 400 ∧
      (deleteRolesRoute s idStr).body =
        some { message := "Cannot delete role that has assigned users",
               usersCount := some (DatabaseStorage.getUsersCountByRoleId s i) } ∧
      (deleteRolesRoute s idStr).state = s) ∧
    (DatabaseStorage.getUsersCountByRoleId s i = 0 →
      (deleteRolesRoute s idStr).status = 204 ∧
      (deleteRolesRoute s idStr).state.roles =
        s.roles.filter (fun r => !((r.id : Int) == i))) := by
  constructor
  · intro hcnt
    refine ⟨?_, ?_, ?_⟩ <;> simp [deleteRolesRoute, hparse, hcnt]
  · intro hcnt
    constructor <;> simp [deleteRolesRoute, hparse, hcnt, DatabaseStorage.deleteRole]

/-- C5 witness: in the sample store user 1 references role 1, so the
delete is refused with the count 1; role 1 therefore survives. -/
theorem role_deletion_guard_witness :
    jsParseInt "1" = some 1 ∧
    0 < DatabaseStorage.getUsersCountByRoleId sampleStore 1 ∧
    (deleteRolesRoute sampleStore "1").status = 400 :=
  ⟨by decide, by decide,
   ((role_deletion_guard sampleStore "1" 1 (by decide)).1 (by decide)).1⟩

/-! ### C6: duplicate tender reference numbers -/

/-- C6: `POST /api/tenders` whose body reuses an existing referenceNumber
answers 400 with the conflict message and leaves the store — in particular
the tenders row count — unchanged. -/
theorem tender_duplicate_reference_rejected (s : Storage) (b : InsertTender) (now : Nat)
    (hdup : s.tenders.any (fun t => t.referenceNumber == b.referenceNumber) = true) :
    (postTendersRoute s b now).status = 400 ∧
    (postTendersRoute s b now).body = some (.err "Reference number is already in use") ∧
    (postTendersRoute s b now).state = s ∧
    (postTendersRoute s b now).state.tenders.length = s.tenders.length := by
  obtain ⟨t0, ht0, hp⟩ := List.any_eq_true.mp hdup
  cases hfind : s.tenders.find? (fun t => t.referenceNumber == b.referenceNumber) with
  | none => exact absurd hp (List.find?_eq_none.mp hfind t0 ht0)
  | some t =>
    refine ⟨?_, ?_, ?_, ?_⟩ <;>
      simp [postTendersRoute, DatabaseStorage.getTenderByReference, hfind]

/-- C6 witness: posting a tender that reuses reference "T1" against the
sample store is rejected. -/
theorem tender_duplicate_reference_rejected_witness :
    (sampleStore.tenders.any
      (fun t => t.referenceNumber == ("T1" : String)) = true) ∧
    (postTendersRoute sampleStore
      { referenceNumber := "T1", title := "Dup", publishDate := 0, dueDate := 0,
        description := "d" } 7).status = 400 :=
  ⟨by decide,
   (tender_duplicate_reference_rejected sampleStore
      { referenceNumber := "T1", title := "Dup", publishDate := 0, dueDate := 0,
        description := "d" } 7 (by decide)).1⟩

/-! ### C4: password redaction -/

/-- Two user rows that agree on every column except possibly `password`. -/
def eqExceptPassword (u v : User) : Prop :=
  u.id = v.id ∧ u.username = v.username ∧ u.name = v.name ∧ u.email = v.email ∧
  u.role = v.role ∧ u.roleId = v.roleId ∧ u.department = v.department ∧
  u.status = v.status ∧ u.lastLogin = v.lastLogin ∧ u.createdAt = v.createdAt ∧
  u.updatedAt = v.updatedAt

/-- Two stores that differ only in stored user passwords. -/
def usersDifferOnlyInPasswords (s1 s2 : Storage) : Prop :=
  List.Forall₂ eqExceptPassword s1.users s2.users ∧
  s1.roles = s2.roles ∧ s1.companies = s2.companies ∧ s1.clients = s2.clients ∧
  s1.customers = s2.customers ∧ s1.tenders = s2.tenders ∧
  s1.documents = s2.documents ∧ s1.activities = s2.activities ∧
  s1.leads = s2.leads ∧ s1.nextUserId = s2.nextUserId ∧
  s1.nextRoleId = s2.nextRoleId ∧ s1.nextCompanyId = s2.nextCompanyId ∧
  s1.nextClientId = s2.nextClientId ∧ s1.nextCustomerId = s2.nextCustomerId ∧
  s1.nextTenderId = s2.nextTenderId ∧ s1.nextDocumentId = s2.nextDocumentId ∧
  s1.nextActivityId = s2.nextActivityId ∧ s1.nextLeadId = s2.nextLeadId

theorem toPublic_eq_of_eqExceptPassword {u v : User} (h : eqExceptPassword u v) :
    u.toPublic = v.toPublic := by
  obtain ⟨h1, h2, h3, h4, h5, h6, h7, h8, h9, h10, h11⟩ := h
  simp [User.toPublic, h1, h2, h3, h4, h5, h6, h7, h8, h9, h10, h11]

theorem applyUserPatch_eqExceptPassword {u v : User} (h : eqExceptPassword u v)
    (p : UserPatch) (now : Nat) :
    eqExceptPassword (applyUserPatch u p now) (applyUserPatch v p now) := by
  obtain ⟨h1, h2, h3, h4, h5, h6, h7, h8, h9, h10, h11⟩ := h
  exact ⟨h1, by simp [applyUserPatch, h2], by simp [applyUserPatch, h3],
    by simp [applyUserPatch, h4], by simp [applyUserPatch, h5],
    by simp [applyUserPatch, h6], by simp [applyUserPatch, h7],
    by simp [applyUserPatch, h8], h9, h10, rfl⟩

theorem map_toPublic_eq_of_forall₂ {l1 l2 : List User}
    (h : List.Forall₂ eqExceptPassword l1 l2) :
    l1.map User.toPublic = l2.map User.toPublic := by
  induction h with
  | nil => rfl
  | cons hab _ ih => simp [toPublic_eq_of_eqExceptPassword hab, ih]

/-- C4: every User-returning route — current user, user list, user create
and user update — produces the same status and body on two stores that
differ only in stored passwords; equivalently, the `password` column never
influences (and so never reaches) any serialized User response. -/
theorem user_responses_omit_password (s1 s2 : Storage)
    (h : usersDifferOnlyInPasswords s1 s2)
    (b : InsertUser) (idStr : String) (pb : UserPatch) (now : Nat) :
    (getCurrentUserRoute s1).status = (getCurrentUserRoute s2).status ∧
    (getCurrentUserRoute s1).body = (getCurrentUserRoute s2).body ∧
    (getUsersRoute s1).body = (getUsersRoute s2).body ∧
    (postUsersRoute s1 b now).status = (postUsersRoute s2 b now).status ∧
    (postUsersRoute s1 b now).body = (postUsersRoute s2 b now).body ∧
    (patchUsersRoute s1 idStr pb now).status = (patchUsersRoute s2 idStr pb now).status ∧
    (patchUsersRoute s1 idStr pb now).body = (patchUsersRoute s2 idStr pb now).body := by
  obtain ⟨hu, _, _, _, _, _, _, _, _, hnext, _⟩ := h
  have hcur :
      (getCurrentUserRoute s1).status = (getCurrentUserRoute s2).status ∧
      (getCurrentUserRoute s1).body = (getCurrentUserRoute s2).body := by
    rcases find?_rel_of_forall₂ hu
        (p := fun u => u.id == 1) (q := fun u => u.id == 1)
        (fun a b hab => by simp only [hab.1]) with ⟨h1, h2⟩ | ⟨a, c, h1, h2, hac⟩
    · constructor <;> simp [getCurrentUserRoute, DatabaseStorage.getUser, h1, h2]
    · constructor <;>
        simp [getCurrentUserRoute, DatabaseStorage.getUser, h1, h2,
          toPublic_eq_of_eqExceptPassword hac]
  have hpost :
      (postUsersRoute s1 b now).status = (postUsersRoute s2 b now).status ∧
      (postUsersRoute s1 b now).body = (postUsersRoute s2 b now).body := by
    rcases find?_rel_of_forall₂ hu
        (p := fun u => u.username == b.username) (q := fun u => u.username == b.username)
        (fun a c hac => by simp only [hac.2.1]) with ⟨h1, h2⟩ | ⟨a, c, h1, h2, hac⟩
    · constructor <;>
        simp [postUsersRoute, DatabaseStorage.getUserByUsername, h1, h2,
          DatabaseStorage.createUser, hnext]
    · constructor <;> simp [postUsersRoute, DatabaseStorage.getUserByUsername, h1, h2]
  have hpatch :
      (patchUsersRoute s1 idStr pb now).status = (patchUsersRoute s2 idStr pb now).status ∧
      (patchUsersRoute s1 idStr pb now).body = (patchUsersRoute s2 idStr pb now).body := by
    cases hid : jsParseInt idStr with
    | none => constructor <;> simp [patchUsersRoute, hid]
    | some i =>
      rcases find?_rel_of_forall₂ hu
          (p := fun u => (u.id : Int) == i) (q := fun u => (u.id : Int) == i)
          (fun a c hac => by simp only [hac.1]) with ⟨h1, h2⟩ | ⟨a, c, h1, h2, hac⟩
      · constructor <;>
          simp [patchUsersRoute, hid, DatabaseStorage.updateUser, h1, h2]
      · have hpub := toPublic_eq_of_eqExceptPassword
          (applyUserPatch_eqExceptPassword hac
            (if jsFalsyPassword pb.password then { pb with password := none } else pb) now)
        constructor <;>
          simp [patchUsersRoute, hid, DatabaseStorage.updateUser, h1, h2, hpub]
  exact ⟨hcur.1, hcur.2, by simp [getUsersRoute, DatabaseStorage.getUsers,
    map_toPublic_eq_of_forall₂ hu], hpost.1, hpost.2, hpatch.1, hpatch.2⟩

/-- A copy of the sample store whose only difference is user 1's stored
password. -/
def sampleStorePw : Storage :=
  { sampleStore with users := [{ sampleUser with password := "hunter2" }] }

/-- C4 witness: the redaction theorem applied to the sample store and its
password-variant copy. -/
theorem user_responses_omit_password_witness :
    usersDifferOnlyInPasswords sampleStore sampleStorePw ∧
    (getCurrentUserRoute sampleStore).body = (getCurrentUserRoute sampleStorePw).body := by
  have h : usersDifferOnlyInPasswords sampleStore sampleStorePw := by
    refine ⟨List.Forall₂.cons ?_ List.Forall₂.nil, rfl, rfl, rfl, rfl, rfl, rfl,
      rfl, rfl, rfl, rfl, rfl, rfl, rfl, rfl, rfl, rfl, rfl⟩
    exact ⟨rfl, rfl, rfl, rfl, rfl, rfl, rfl, rfl, rfl, rfl, rfl⟩
  exact ⟨h, (user_responses_omit_password sampleStore sampleStorePw h
    { username := "x", password := "y", name := "z" } "1" {} 7).2.1⟩

/-! ### C9: PATCH users with a falsy password -/

/-- C9: when the PATCH users payload's password is absent, `null` or `""`,
the route deletes it from the payload, so the stored password survives the
update unchanged while every other supplied field is applied and
`updatedAt` is set to the request time; rows with other ids are untouched,
and the route answers 200. -/
theorem patch_user_password_preserved (s : Storage) (idStr : String) (i : Int)
    (pb : UserPatch) (now : Nat) (u : User)
    (hparse : jsParseInt idStr = some i)
    (hfind : s.users.find? (fun x => (x.id : Int) == i) = some u)
    (hfalsy : jsFalsyPassword pb.password = true) :
    (patchUsersRoute s idStr pb now).status = 200 ∧
    List.Forall₂ (fun old new =>
      (((old.id : Int) == i) = true →
        new.password = old.password ∧
        new.username = pb.username.getD old.username ∧
        new.name = pb.name.getD old.name ∧
        new.email = pb.email.getD old.email ∧
        new.role = pb.role.getD old.role ∧
        new.roleId = pb.roleId.getD old.roleId ∧
        new.department = pb.department.getD old.department ∧
        new.status = pb.status.getD old.status ∧
        new.updatedAt = now) ∧
      (((old.id : Int) == i) = false → new = old))
      s.users (patchUsersRoute s idStr pb now).state.users := by
  constructor
  · simp [patchUsersRoute, hparse, hfalsy, DatabaseStorage.updateUser, hfind]
  · have hstate : (patchUsersRoute s idStr pb now).state.users =
        s.users.map (fun v => if (v.id : Int) == i
          then applyUserPatch v { pb with password := none } now else v) := by
      simp [patchUsersRoute, hparse, hfalsy, DatabaseStorage.updateUser, hfind]
    rw [hstate, List.forall₂_map_right_iff]
    rw [List.forall₂_same]
    intro x _
    constructor
    · intro hxi
      simp only [hxi, if_true]
      refine ⟨rfl, rfl, rfl, rfl, rfl, rfl, rfl, rfl, rfl⟩
    · intro hxi
      simp [hxi]

/-- C9 witness: updating user 1's name with an empty-string password leaves
the stored password alone and applies the name. -/
theorem patch_user_password_preserved_witness :
    jsParseInt "1" = some 1 ∧
    sampleStore.users.find? (fun x => (x.id : Int) == 1) = some sampleUser ∧
    jsFalsyPassword (some (some "")) = true ∧
    (patchUsersRoute sampleStore "1"
      { name := some "Jordan", password := some (some "") } 9).status = 200 :=
  ⟨by decide, by decide, by decide,
   (patch_user_password_preserved sampleStore "1" 1
      { name := some "Jordan", password := some (some "") } 9 sampleUser
      (by decide) (by decide) (by decide)).1⟩

/-! ### C7: tender search semantics -/

/-- C7 counterexample: the search string is interpolated into an `ILIKE`
pattern, so its wildcards keep their SQL meaning.  Searching for `"%"`
returns the sample tender even though `"%"` occurs in neither its title nor
its referenceNumber as a substring, case-insensitively or otherwise. -/
theorem tender_search_wildcard_cex :
    DatabaseStorage.getTenders sampleStore { search := some "%" } 1 10 =
      some { tenders := [sampleTender], total := 1 } ∧
    containsCI sampleTender.title "%" = false ∧
    containsCI sampleTender.referenceNumber "%" = false := by
  refine ⟨by decide, by decide, by decide⟩

/-- C7 (amended): for every search string free of the SQL LIKE
metacharacters `%`, `_` and backslash, the tender search condition holds of
exactly the tenders whose title or referenceNumber contains the string as a
case-insensitive substring, and the listing's matching row set is exactly
the rows passing that containment test.  A search string containing LIKE
metacharacters is instead interpreted as a pattern. -/
theorem tender_search_substring_semantics (q : String) (hq : likeSafe q) :
    (∀ t : Tender, DatabaseStorage.matchesTenderFilters { search := some q } t =
      (containsCI t.title q || containsCI t.referenceNumber q)) ∧
    (∀ s : Storage,
      s.tenders.filter (DatabaseStorage.matchesTenderFilters { search := some q }) =
      s.tenders.filter (fun t => containsCI t.title q || containsCI t.referenceNumber q)) := by
  have hpt : ∀ t : Tender, DatabaseStorage.matchesTenderFilters { search := some q } t =
      (containsCI t.title q || containsCI t.referenceNumber q) := by
    intro t
    by_cases hq0 : q = ""
    · subst hq0
      simp [DatabaseStorage.matchesTenderFilters, containsCI]
    · have hq0' : (q == "") = false := by
        simp [hq0]
      simp [DatabaseStorage.matchesTenderFilters, hq0',
        ilikeP_eq_containsCI q hq t.title, ilikeP_eq_containsCI q hq t.referenceNumber]
  exact ⟨hpt, fun s => List.filter_congr (fun t _ => hpt t)⟩

/-- C7 witness: the amended semantics applied to the wildcard-free search
string "acme", which matches the sample tender case-insensitively. -/
theorem tender_search_substring_semantics_witness :
    likeSafe "acme" ∧
    DatabaseStorage.matchesTenderFilters { search := some "acme" } sampleTender =
      (containsCI sampleTender.title "acme" || containsCI sampleTender.referenceNumber "acme") :=
  ⟨by decide, (tender_search_substring_semantics "acme" (by decide)).1 sampleTender⟩

/-! ### C10: customer and lead search are case-sensitive -/

theorem likeOptP_eq_containsCSOpt (q : String) (hq : likeSafe q) (o : Option String) :
    likeOptP q o = containsCSOpt o q := by
  cases o with
  | none => rfl
  | some t => simp [likeOptP, containsCSOpt, likeP_eq_containsCS q hq]

/-- C10: the Customer search condition is case-sensitive substring
containment over name, email and company, and the Lead search condition is
case-sensitive containment over title, joined company name and contact
person (for metacharacter-free search strings) — so a search differing from
the stored text only in letter case finds nothing: searching customers for
"ACME" misses the sample customer named "Acme Corp" (with company "Acme
Holdings" and email "hi@acme.test"), while the same search string does
match the tender titled "Acme Tender" through the case-insensitive tender
search. -/
theorem customer_lead_search_case_sensitive (q : String) (hq : likeSafe q) :
    (∀ c : Customer,
      DatabaseStorage.matchesCustomerFilters { search := some q } c =
        (containsCS c.name q || containsCSOpt c.email q || containsCSOpt c.company q)) ∧
    (∀ r : LeadRow,
      DatabaseStorage.matchesLeadFilters { search := some q } r =
        (containsCS r.title q || containsCSOpt r.companyName q ||
          containsCS r.contactPerson q)) ∧
    DatabaseStorage.getCustomers sampleStore { search := some "ACME" } = [] ∧
    sampleCustomer.name = "Acme Corp" ∧
    DatabaseStorage.getLeads sampleStore { search := some "ACME" } = [] ∧
    sampleLead.title = "Acme Lead" ∧
    DatabaseStorage.matchesTenderFilters { search := some "ACME" } sampleTender = true := by
  refine ⟨?_, ?_, by decide, rfl, by decide, rfl, by decide⟩
  · intro c
    by_cases hq0 : q = ""
    · subst hq0
      simp [DatabaseStorage.matchesCustomerFilters, containsCS]
    · have hq0' : (q == "") = false := by simp [hq0]
      simp [DatabaseStorage.matchesCustomerFilters, hq0',
        likeP_eq_containsCS q hq, likeOptP_eq_containsCSOpt q hq, Bool.or_assoc]
  · intro r
    by_cases hq0 : q = ""
    · subst hq0
      simp [DatabaseStorage.matchesLeadFilters, containsCS]
    · have hq0' : (q == "") = false := by simp [hq0]
      simp [DatabaseStorage.matchesLeadFilters, hq0',
        likeP_eq_containsCS q hq, likeOptP_eq_containsCSOpt q hq, Bool.or_assoc]

/-- C10 witness: the characterization applied to the metacharacter-free
search string "ACME" and the sample customer. -/
theorem customer_lead_search_case_sensitive_witness :
    likeSafe "ACME" ∧
    DatabaseStorage.matchesCustomerFilters { search := some "ACME" } sampleCustomer =
      (containsCS sampleCustomer.name "ACME" || containsCSOpt sampleCustomer.email "ACME" ||
        containsCSOpt sampleCustomer.company "ACME") :=
  ⟨by decide, (customer_lead_search_case_sensitive "ACME" (by decide)).1 sampleCustomer⟩

/-! ### C3: tender listing pagination -/

/-- C3: for any filter set, page `p ≥ 1` and limit `L ≥ 0`, the tender
listing returns the slice of the matching rows — ordered by creation time
descending — from position `(p−1)·L+1` through `p·L` (as a drop/take of a
sorted permutation of the matching rows), together with `total` equal to
the full count of matching rows; and the route falls back to page 1 and
limit 10 when the corresponding query parameter is absent or does not
parse to a number. -/
theorem tender_listing_pagination
    (s : Storage) (f : DatabaseStorage.TenderFilters) (p L : Int)
    (q : TendersQuery) (ps ls junk : String)
    (hp : 1 ≤ p) (hL : 0 ≤ L)
    (hps : jsParseInt ps = some p) (hls : jsParseInt ls = some L)
    (hjunk : jsParseInt junk = none) :
    (∃ M : List Tender,
        M.Perm (s.tenders.filter (DatabaseStorage.matchesTenderFilters f)) ∧
        M.Sorted DatabaseStorage.tenderNewer ∧
        DatabaseStorage.getTenders s f p L =
          some { tenders := (M.drop ((p - 1) * L).toNat).take L.toNat,
                 total := (s.tenders.filter (DatabaseStorage.matchesTenderFilters f)).length }) ∧
    (∃ r, DatabaseStorage.getTenders s (buildTenderFilters q) p L = some r ∧
        getTendersRoute s { q with page := some ps, limit := some ls } =
          ⟨200, some (.page r), s⟩) ∧
    getTendersRoute s { q with page := none } =
      getTendersRoute s { q with page := some "1" } ∧
    getTendersRoute s { q with limit := none } =
      getTendersRoute s { q with limit := some "10" } ∧
    getTendersRoute s { q with page := some junk } =
      getTendersRoute s { q with page := some "1" } ∧
    getTendersRoute s { q with limit := some junk } =
      getTendersRoute s { q with limit := some "10" } := by
  have key : ∀ g : DatabaseStorage.TenderFilters,
      DatabaseStorage.getTenders s g p L =
        some { tenders := ((List.insertionSort DatabaseStorage.tenderNewer
                  (s.tenders.filter (DatabaseStorage.matchesTenderFilters g))).drop
                  ((p - 1) * L).toNat).take L.toNat,
               total := (s.tenders.filter (DatabaseStorage.matchesTenderFilters g)).length } := by
    intro g
    have h1 : ¬((p - 1) * L < 0) := by
      have := mul_nonneg (by omega : (0 : Int) ≤ p - 1) hL
      omega
    have h2 : ¬(L < 0) := by omega
    simp [DatabaseStorage.getTenders, h1, h2]
  have hone : jsParseInt "1" = some 1 := by decide
  have hten : jsParseInt "10" = some 10 := by decide
  refine ⟨?_, ?_, rfl, rfl, ?_, ?_⟩
  · exact ⟨List.insertionSort DatabaseStorage.tenderNewer
        (s.tenders.filter (DatabaseStorage.matchesTenderFilters f)),
      List.perm_insertionSort _ _, List.sorted_insertionSort _ _, key f⟩
  · refine ⟨_, key (buildTenderFilters q), ?_⟩
    have hbf : buildTenderFilters { q with page := some ps, limit := some ls } =
        buildTenderFilters q := rfl
    simp [getTendersRoute, hps, hls, hbf, key (buildTenderFilters q)]
  · have hbf : buildTenderFilters { q with page := some junk } = buildTenderFilters q := rfl
    have hbf2 : buildTenderFilters { q with page := some "1" } = buildTenderFilters q := rfl
    simp [getTendersRoute, hjunk, hone, hbf, hbf2]
  · have hbf : buildTenderFilters { q with limit := some junk } = buildTenderFilters q := rfl
    have hbf2 : buildTenderFilters { q with limit := some "10" } = buildTenderFilters q := rfl
    simp [getTendersRoute, hjunk, hten, hbf, hbf2]

/-- A tender whose creation instant and identity grow with `k`. -/
def mkPageTender (k : Nat) : Tender :=
  { id := k + 1, referenceNumber := "R" ++ toString (k + 1),
    title := "T" ++ toString (k + 1), clientId := none, companyId := none,
    department := none, publishDate := 0, dueDate := 0, status := "open",
    estimatedValue := none, description := "d", createdBy := none,
    createdAt := k + 1, updatedAt := k + 1 }

/-- A store with 25 tender rows, the matching set of the claim's example. -/
def manyTendersStore : Storage :=
  { emptyStorage with tenders := (List.range 25).map mkPageTender, nextTenderId := 26 }

/-- C3 witness: the pagination theorem applied to the 25-row store with
`page=2, limit=10` given as query strings, and "abc" as an unparseable
parameter. -/
theorem tender_listing_pagination_witness :
    (1 : Int) ≤ 2 ∧ (0 : Int) ≤ 10 ∧
    jsParseInt "2" = some 2 ∧ jsParseInt "10" = some 10 ∧ jsParseInt "abc" = none ∧
    (∃ M : List Tender, M.Perm (manyTendersStore.tenders.filter
          (DatabaseStorage.matchesTenderFilters {})) ∧
        M.Sorted DatabaseStorage.tenderNewer ∧
        DatabaseStorage.getTenders manyTendersStore {} 2 10 =
          some { tenders := (M.drop ((2 - 1) * 10 : Int).toNat).take (10 : Int).toNat,
                 total := (manyTendersStore.tenders.filter
                    (DatabaseStorage.matchesTenderFilters {})).length }) :=
  ⟨by decide, by decide, by decide, by decide, by decide,
   (tender_listing_pagination manyTendersStore {} 2 10 {} "2" "10" "abc"
      (by decide) (by decide) (by decide) (by decide) (by decide)).1⟩
